import Mathlib

/-!
# Ecommerce backend: route handlers and document models

A shallow embedding of the route handlers of `routes/cart.js`, `routes/auth.js`,
`routes/coupon.js` and `routes/complaints.js`, of the seller-id loop of `routes/adminauth.js`,
and of the Mongoose schemas and document methods of `models/`.

Conventions.
* A collection is a list of documents in insertion order; `findOne` returns the first match.
* A path of type ObjectId holds the 24-digit lower-case hexadecimal form of the identifier.  A
  string of a request that reaches such a path is cast by `castObjectId`; a query whose cast
  fails throws a `CastError`, a document whose cast fails is rejected by the validation of
  `save()`.
* A JavaScript number is an exact rational, or an integer where the code makes it one
  (`parseInt`, `Math.floor`); a number that can be `undefined` or `NaN` is an `Option`, `none`
  standing for the absence of a numeric value.  The stock counters of a product are integers
  held in doubles: their arithmetic rounds to the nearest double (`roundDouble`).
* Handlers return the response together with the collection after the request.  A handler whose
  `try` block throws answers from its `catch` block and leaves the collection as the last
  successful write left it.
* Timestamps (`createdAt`, `updatedAt`) are not part of the documents.
* Library calls whose code is not part of the repository (bcrypt, validator, the mail transport,
  random sources) are parameters of the handlers.
-/

namespace Ecommerce

/-! ## ObjectId paths -/

/-- A hexadecimal digit. -/
def isHexDigit (c : Char) : Bool :=
  c.isDigit || ('a' ≤ c && c ≤ 'f') || ('A' ≤ c && c ≤ 'F')

/-- The cast of a string to an ObjectId, as the constructor of the current driver does it: it
succeeds on a string of 24 hexadecimal digits, and the identifier is held in lower case whatever
the case of the digits given.  (Drivers before bson 6 also took any string of 12 characters; no
theorem below depends on how such a string is cast: where a theorem needs the cast to succeed the
string has 24 hexadecimal digits, and the strings shown to fail have other lengths than 12.) -/
def castObjectId (s : String) : Option String :=
  if s.data.length == 24 && s.data.all isHexDigit then some ⟨s.data.map Char.toLower⟩ else none

/-- The message of the `CastError` thrown by a query on an ObjectId path. -/
def castErrorMessage (value path model : String) : String :=
  "Cast to ObjectId failed for value \"" ++ value ++ "\" (type string) at path \"" ++ path ++
    "\" for model \"" ++ model ++ "\""

/-- Outcome of a query for one document by an ObjectId path: the cast of the value failed and the
query threw, or the query resolved to `null`, or it resolved to a document. -/
inductive Lookup (α : Type) where
  | castError (message : String)
  | missing
  | found (doc : α)
  deriving DecidableEq, Repr

/-! ## Cart model (`models/cartmodel.js`) -/

/-- One element of `productsInCart`: the two paths declared by `cartSchema`. -/
structure LineItem where
  productId : String
  productQty : Option ℚ
  deriving DecidableEq, Repr

/-- A cart document. -/
structure Cart where
  userId : String
  productsInCart : List LineItem
  deriving DecidableEq, Repr

/-- An object literal handed to mongoose for one line item.  The routes write either the key
`productQty` or the key `quantity`. -/
structure ItemLiteral where
  productId : String
  productQty : Option ℚ
  quantity : Option ℚ
  deriving DecidableEq, Repr

/-- Casting of an object literal to the line-item subdocument.  The schema is strict, so only the
declared paths `productId` and `productQty` are kept; a `quantity` key is dropped.  `productId`
is cast to an ObjectId; a value that does not cast is kept as given and fails validation. -/
def LineItem.cast (o : ItemLiteral) : LineItem :=
  { productId := (castObjectId o.productId).getD o.productId, productQty := o.productQty }

/-- Validation of a line item: `productId` holds an ObjectId, and `productQty` passes
`{ type: Number, required: true, min: 1 }`. -/
def LineItem.valid (item : LineItem) : Bool :=
  (castObjectId item.productId).isSome &&
    (match item.productQty with
     | some q => decide (1 ≤ q)
     | none => false)

/-- Document validation run by `cart.save()`. -/
def Cart.validate (cart : Cart) : Bool :=
  (castObjectId cart.userId).isSome && cart.productsInCart.all LineItem.valid

/-- The query `Cart.findOne({ userId })`: the value is cast to an ObjectId, then the first cart
with that `userId` is fetched. -/
def Cart.findOne (carts : List Cart) (userId : String) : Lookup Cart :=
  match castObjectId userId with
  | none => .castError (castErrorMessage userId "userId" "Cart")
  | some id =>
    match carts.find? (fun c => c.userId == id) with
    | none => .missing
    | some cart => .found cart

/-- Replace the first document satisfying `p`. -/
def replaceFirst {α : Type} (p : α → Bool) (new : α) : List α → List α
  | [] => []
  | x :: xs => if p x then new :: xs else x :: replaceFirst p new xs

/-- The call `cart.save()` on a document loaded by `Cart.findOne({ userId })`: validation, then the
stored document is overwritten.  `none` is a rejected save (the promise rejects). -/
def Cart.saveExisting (carts : List Cart) (cart : Cart) : Option (List Cart) :=
  if cart.validate then some (replaceFirst (fun c => c.userId == cart.userId) cart carts) else none

/-- The call `cart.save()` on a document made by `new Cart(...)`: validation, then insertion. -/
def Cart.saveNew (carts : List Cart) (cart : Cart) : Option (List Cart) :=
  if cart.validate then some (carts ++ [cart]) else none

/-- The comparison `productQty <= 0` of JavaScript: false when the left side is `NaN`. -/
def jsLeZero : Option Int → Bool
  | some q => decide (q ≤ 0)
  | none => false

/-- The compound assignment `existingProduct.productQty += productQty`. -/
def jsAdd : Option ℚ → Option ℚ → Option ℚ
  | some a, some b => some (a + b)
  | _, _ => none

/-- The statement `existingProduct.productQty += productQty` where `existingProduct` is the first
line item with the given `productId`. -/
def addQty (productId : String) (productQty : Option ℚ) : List LineItem → List LineItem
  | [] => []
  | item :: rest =>
    if item.productId == productId then
      { item with productQty := jsAdd item.productQty productQty } :: rest
    else item :: addQty productId productQty rest

/-- Response of the cart routes. -/
structure CartResponse where
  status : Nat
  message : String
  cart : Option Cart
  deriving DecidableEq, Repr

/-- Handler of `POST /addtocart` (`routes/cart.js`).  `productQty` is the value of
`parseInt(quantity)`: an integer, or `none` for `NaN`.  The line items of a loaded cart are
compared with `productId` as strings (`item.productId.toString() === productId`). -/
def addToCart (carts : List Cart) (userId productId : String) (productQty : Option Int) :
    CartResponse × List Cart :=
  if jsLeZero productQty then
    (⟨400, "Quantity must be a positive number.", none⟩, carts)
  else
    let qty : Option ℚ := productQty.map (fun n => (n : ℚ))
    match Cart.findOne carts userId with
    | .castError _ => (⟨500, "Error adding product to cart", none⟩, carts)
    | .found cart =>
      let cart' : Cart :=
        match cart.productsInCart.find? (fun item => item.productId == productId) with
        | some _ => { cart with productsInCart := addQty productId qty cart.productsInCart }
        | none =>
          { cart with productsInCart := cart.productsInCart ++
              [LineItem.cast { productId := productId, productQty := qty, quantity := none }] }
      match Cart.saveExisting carts cart' with
      | some carts' => (⟨200, "Product added to cart successfully", some cart'⟩, carts')
      | none => (⟨500, "Error adding product to cart", none⟩, carts)
    | .missing =>
      let cart : Cart :=
        { userId := (castObjectId userId).getD userId
          productsInCart :=
            [LineItem.cast { productId := productId, productQty := none, quantity := qty }] }
      match Cart.saveNew carts cart with
      | some carts' => (⟨200, "Product added to cart successfully", some cart⟩, carts')
      | none => (⟨500, "Error adding product to cart", none⟩, carts)

/-! ## User model (`models/user.js`) -/

/-- A user document; `id` is the document key `_id` that `findById` looks up. -/
structure User where
  id : String
  name : String
  email : String
  password : String
  userId : String
  accountStatus : String
  phone : String
  deriving DecidableEq, Repr

/-- Line terminators, the characters that `.` of a JavaScript regular expression skips. -/
def isLineTerminator (c : Char) : Bool :=
  c == '\n' || c == '\r' || c.val == 0x2028 || c.val == 0x2029

/-- A character matched by `.`. -/
def dotChar (c : Char) : Bool := !isLineTerminator c

/-- With one character of the second `.+` of `/.+@.+\..+/` consumed: the rest of `.+\..+`. -/
def userEmailAfterFirst : List Char → Bool
  | [] => false
  | c :: rest =>
    (c == '.' && (match rest with | d :: _ => dotChar d | [] => false)) ||
      (dotChar c && userEmailAfterFirst rest)

/-- The pattern `@.+\..+` at the head of the list. -/
def userEmailFromAt : List Char → Bool
  | a :: c :: rest => a == '@' && dotChar c && userEmailAfterFirst rest
  | _ => false

/-- The test `/.+@.+\..+/.test(s)` on the characters of `s` (the pattern is not anchored). -/
def userEmailMatch : List Char → Bool
  | [] => false
  | c :: rest => (dotChar c && userEmailFromAt rest) || userEmailMatch rest

/-- The test `/^\d{10}$/.test(s)`. -/
def phoneMatch (s : String) : Bool :=
  s.data.length == 10 && s.data.all Char.isDigit

/-- Document validation of `UserSchema`: required strings are non-empty, `match` validators are
skipped on the empty string, `accountStatus` is one of the enumerated values. -/
def User.validate (u : User) : Bool :=
  u.name != "" && u.email != "" && userEmailMatch u.email.data && u.password != "" &&
    u.userId != "" &&
    (u.accountStatus == "open" || u.accountStatus == "closed" || u.accountStatus == "suspended") &&
    (u.phone == "" || phoneMatch u.phone)

/-- The bcrypt library: `hash data salt` is the digest and `saltOf digest` the salt a digest
carries. -/
structure Bcrypt where
  hash : String → String → String
  saltOf : String → String

/-- The call `bcrypt.compare(data, stored)`: hash `data` with the salt of `stored`, then compare. -/
def Bcrypt.compare (B : Bcrypt) (data stored : String) : Bool :=
  B.hash data (B.saltOf stored) == stored

/-- The hook `UserSchema.pre('save')`: unless the password path is unmodified, the password is
replaced by its hash under a fresh salt. -/
def User.preSave (B : Bcrypt) (passwordModified : Bool) (salt : String) (u : User) : User :=
  if !passwordModified then u else { u with password := B.hash u.password salt }

/-- The call `user.save()` on a document made by `new User(...)`: validation, the pre-save hook
(every path of a new document counts as modified), then insertion under the unique indexes of
`email`, `userId` and the document key. -/
def User.saveNew (B : Bcrypt) (users : List User) (u : User) (salt : String) :
    Option (List User) :=
  if !u.validate then none
  else
    let u' := User.preSave B true salt u
    if users.any (fun x => x.email == u'.email || x.userId == u'.userId || x.id == u'.id) then none
    else some (users ++ [u'])

/-- The query `User.findOne({ email })`. -/
def User.findOne (users : List User) (email : String) : Option User :=
  users.find? (fun u => u.email == email)

/-- The query `User.findById(id)`: the value is cast to an ObjectId, then the user with that
document key is fetched. -/
def User.findById (users : List User) (id : String) : Lookup User :=
  match castObjectId id with
  | none => .castError (castErrorMessage id "_id" "User")
  | some key =>
    match users.find? (fun u => u.id == key) with
    | none => .missing
    | some user => .found user

/-! ## Account routes (`routes/auth.js`) -/

/-- The two checks of the `validator` package used by the signup route. -/
structure Validator where
  isEmail : String → Bool
  isMobilePhone : String → Bool

/-- The object returned by `checkAccountStatus` when it is not `null`. -/
structure StatusError where
  status : Nat
  message : String
  deriving DecidableEq, Repr

/-- The helper `checkAccountStatus`; `none` is `null`. -/
def checkAccountStatus (status : String) : Option StatusError :=
  if status == "suspended" then some ⟨403, "Account is suspended"⟩
  else if status == "blocked" then some ⟨403, "Account is blocked"⟩
  else if status != "open" then some ⟨400, "Invalid account status"⟩
  else none

/-- Response of the account routes: status, the `message` or `error` text, the `userId` of the
body and the value written to `req.session.userId`. -/
structure AuthResponse where
  status : Nat
  body : String
  userId : Option String
  session : Option String
  deriving DecidableEq, Repr

/-- Body of `POST /signup`. -/
structure SignupRequest where
  name : String
  email : String
  password : String
  phone : String
  deriving DecidableEq, Repr

/-- Handler of `POST /signup`.  `salt1` is the salt drawn by `bcrypt.hash(password, 10)` in the
route, `salt2` the one drawn by `bcrypt.genSalt(10)` in the pre-save hook, `userId` the value of
`randomBytes(8).toString('hex')` and `docId` the key given to the new document. -/
def signup (V : Validator) (B : Bcrypt) (users : List User) (req : SignupRequest)
    (salt1 salt2 userId docId : String) : AuthResponse × List User :=
  if !V.isEmail req.email then (⟨400, "Invalid email format", none, none⟩, users)
  else if !V.isMobilePhone req.phone then (⟨400, "Invalid phone number format", none, none⟩, users)
  else
    match User.findOne users req.email with
    | some _ => (⟨400, "User already exists", none, none⟩, users)
    | none =>
      let hashedPassword := B.hash req.password salt1
      let user : User :=
        { id := docId, name := req.name, email := req.email, password := hashedPassword,
          userId := userId, accountStatus := "open", phone := req.phone }
      match User.saveNew B users user salt2 with
      | some users' => (⟨201, "User registered successfully", some userId, some user.userId⟩, users')
      | none => (⟨500, "Error registering user", none, none⟩, users)

/-- Handler of `POST /login`. -/
def login (B : Bcrypt) (users : List User) (email password : String) : AuthResponse :=
  match User.findOne users email with
  | none => ⟨400, "Invalid email or password", none, none⟩
  | some user =>
    if !B.compare password user.password then ⟨400, "Invalid email or password", none, none⟩
    else
      match checkAccountStatus user.accountStatus with
      | some r => ⟨r.status, r.message, none, none⟩
      | none => ⟨200, "Login successful", some user.userId, some user.userId⟩

/-! ## Product model (`models/product.js`) -/

/-- A product document: the paths declared by `productSchema`. -/
structure Product where
  name : String
  price : Int
  img : String
  category : String
  rating : Int
  productId : String
  inStockValue : Int
  soldStockValue : Int
  visibility : String
  deriving DecidableEq, Repr

/-- The property read `product.stock` on a Product document.  `productSchema` declares the paths
`inStockValue` and `soldStockValue` and no path or virtual named `stock`, so the read yields
`undefined` on every document. -/
def Product.stock (_ : Product) : Option Int := none

/-- The comparison `a >= b` of JavaScript on numbers: false when a side is `undefined`. -/
def jsGe : Option Int → Option Int → Bool
  | some a, some b => decide (b ≤ a)
  | _, _ => false

/-- The query `Product.find({ productId: { $in: productIds } })`. -/
def Product.findIn (products : List Product) (productIds : List String) : List Product :=
  products.filter (fun p => productIds.contains p.productId)

/-- The double nearest to the integer `n`, ties going to the even significand, for `n` within
the finite range of doubles (magnitude below 2^1024).  An integer of magnitude up to 2^53 is a
double itself; beyond that the doubles are the multiples of the power of two that leaves 53
significant bits. -/
def roundDouble (n : Int) : Int :=
  let m := n.natAbs
  if m ≤ 2 ^ 53 then n
  else
    let ulp := 2 ^ (Nat.log2 m - 52)
    let q := m / ulp
    let r := m % ulp
    let q' := if ulp < 2 * r || (2 * r == ulp && q % 2 == 1) then q + 1 else q
    n.sign * ((q' * ulp : Nat) : Int)

/-- The virtual `totalStockValue`: the sum `this.inStockValue + this.soldStockValue` of two
doubles. -/
def Product.totalStockValue (p : Product) : Int :=
  roundDouble (p.inStockValue + p.soldStockValue)

/-- Document validation of `productSchema`: the required strings are non-empty, `rating` lies
within `min: 0` and `max: 5`, `visibility` is one of the enumerated values.  The two stock paths
carry no validator. -/
def Product.validate (p : Product) : Bool :=
  p.name != "" && p.img != "" && p.category != "" && p.productId != "" &&
    decide (0 ≤ p.rating) && decide (p.rating ≤ 5) &&
    (p.visibility == "on" || p.visibility == "off")

/-- The call `this.save()` on a loaded product: validation, then the stored document (found by
its unique `productId`) is overwritten.  `none` is a rejected save. -/
def Product.saveExisting (products : List Product) (p : Product) : Option (List Product) :=
  if p.validate then some (replaceFirst (fun x => x.productId == p.productId) p products)
  else none

/-- What a call of `sellProduct` leaves behind: the document `this` after the call, the message
of the error thrown (if any), and the collection written by `this.save()` when the save was
reached and accepted. -/
structure SellOutcome where
  document : Product
  thrown : Option String
  saved : Option (List Product)
  deriving DecidableEq, Repr

/-- The method `productSchema.methods.sellProduct` called on the document `p`, whose stock
counters and the quantity are integers held in doubles: `-=` and `+=` round their result to the
nearest double. -/
def Product.sellProduct (products : List Product) (p : Product) (quantity : Int) : SellOutcome :=
  if p.inStockValue < quantity then
    { document := p, thrown := some "Insufficient stock", saved := none }
  else
    let sold : Product :=
      { p with inStockValue := roundDouble (p.inStockValue - quantity),
               soldStockValue := roundDouble (p.soldStockValue + quantity) }
    { document := sold, thrown := none, saved := Product.saveExisting products sold }

/-! ## Complaint model (`models/complaintmodel.js`) -/

/-- The paths of `complaintsSchema` found in a constructor argument; `none` is an absent path. -/
structure ComplaintDraft where
  complaintNumber : Option String
  name : Option String
  email : Option String
  message : Option String
  userType : Option String
  status : Option String
  deriving DecidableEq, Repr

/-- A stored complaint document. -/
structure Complaint where
  complaintNumber : String
  name : String
  email : String
  message : String
  userType : String
  status : String
  deriving DecidableEq, Repr

/-- Characters of the class `\s`. -/
def jsWhitespace (c : Char) : Bool :=
  (0x9 ≤ c.val.toNat && c.val.toNat ≤ 0xD) || c.val.toNat == 0x20 || c.val.toNat == 0xA0 ||
    c.val.toNat == 0x1680 || (0x2000 ≤ c.val.toNat && c.val.toNat ≤ 0x200A) ||
    c.val.toNat == 0x2028 || c.val.toNat == 0x2029 || c.val.toNat == 0x202F ||
    c.val.toNat == 0x205F || c.val.toNat == 0x3000 || c.val.toNat == 0xFEFF

/-- Some `@` of the list is followed by a `.` that has a character on each side. -/
def complaintEmailTail : List Char → Bool
  | [] => false
  | c :: rest => (c == '@' && ((rest.drop 1).dropLast.contains '.')) || complaintEmailTail rest

/-- The test `/^\S+@\S+\.\S+$/.test(s)`. -/
def complaintEmailMatch (s : String) : Bool :=
  s.data.all (fun c => !jsWhitespace c) &&
    (match s.data with
     | [] => false
     | _ :: rest => complaintEmailTail rest)

/-- A required string path: present and non-empty. -/
def requiredString : Option String → Option String
  | some s => if s == "" then none else some s
  | none => none

/-- Document validation of `complaintsSchema` with the default of `status` applied.  Validation
runs before the `pre('save')` hook of the schema, so a document without `complaintNumber` is
rejected before the hook could assign one. -/
def Complaint.validate (d : ComplaintDraft) : Option Complaint :=
  match requiredString d.complaintNumber, requiredString d.name, requiredString d.email,
    requiredString d.message, requiredString d.userType with
  | some number, some name, some email, some message, some userType =>
    let status := d.status.getD "Pending"
    if complaintEmailMatch email &&
        (status == "Pending" || status == "In Progress" || status == "Resolved") then
      some ⟨number, name, email, message, userType, status⟩
    else none
  | _, _, _, _, _ => none

/-- The call `save()` on a document made by `new Complaint(...)`: validation, then insertion
under the unique index of `complaintNumber`.  The error is the message of the rejection. -/
def Complaint.saveNew (complaints : List Complaint) (d : ComplaintDraft) :
    Except String (List Complaint) :=
  match Complaint.validate d with
  | none => .error "Complaint validation failed"
  | some c =>
    if complaints.any (fun x => x.complaintNumber == c.complaintNumber) then
      .error "E11000 duplicate key error"
    else .ok (complaints ++ [c])

/-! ## Order placement (`routes/cart.js`) -/

/-- One element of `productsOrdered`. -/
structure OrderItem where
  productId : String
  quantity : Option Int
  deriving DecidableEq, Repr

/-- Body of `POST /place-order`. -/
structure PlaceOrderRequest where
  userId : String
  date : String
  time : String
  address : String
  price : Int
  productsOrdered : List OrderItem
  deriving DecidableEq, Repr

/-- The object literal handed to `new Order(...)`. -/
structure OrderFields where
  userId : String
  orderId : String
  date : String
  time : String
  address : String
  email : String
  name : String
  productIds : List String
  trackingId : String
  price : Int
  deriving DecidableEq, Repr

/-- The model bound to the name `Order` in `routes/cart.js`, over documents of type `D`:
`save orders fields` is `new Order(fields).save()` against the collection `orders`. -/
structure OrderModel (D : Type) where
  save : List D → OrderFields → Except String (List D)

/-- The model that `routes/cart.js` imports as `Order`: `require('../models/complaintmodel')`.
Of the keys of the literal only `name` and `email` are paths of `complaintsSchema`; the strict
schema drops the others. -/
def complaintAsOrder : OrderModel Complaint where
  save complaints fields :=
    Complaint.saveNew complaints
      { complaintNumber := none, name := some fields.name, email := some fields.email,
        message := none, userType := none, status := none }

/-- The callback of `productDetails.every(...)` folded over the fetched products.  The error is
the `TypeError` of reading `.quantity` of `undefined`. -/
def stockCheck (productsOrdered : List OrderItem) : List Product → Except String Bool
  | [] => .ok true
  | product :: rest =>
    match productsOrdered.find? (fun item => item.productId == product.productId) with
    | none => .error "Cannot read properties of undefined (reading 'quantity')"
    | some item =>
      if jsGe product.stock item.quantity then stockCheck productsOrdered rest else .ok false

/-- Response of `POST /place-order`. -/
structure PlaceOrderResponse where
  status : Nat
  message : String
  error : Option String
  orderId : Option String
  trackingId : Option String
  deriving DecidableEq, Repr

/-- Handler of `POST /place-order`.  `orderId` and `trackingId` are the two values computed from
`Math.random()`, `mail` is the outcome of `transporter.sendMail` (the error carries the message
of the rejection). -/
def placeOrder {D : Type} (Order : OrderModel D) (users : List User) (products : List Product)
    (orders : List D) (req : PlaceOrderRequest) (orderId trackingId : String)
    (mail : Except String Unit) : PlaceOrderResponse × List D :=
  match User.findById users req.userId with
  | .castError e => (⟨500, "Error placing order", some e, none, none⟩, orders)
  | .missing => (⟨500, "Error placing order", some "User not found", none, none⟩, orders)
  | .found user =>
    let productIds := req.productsOrdered.map (fun item => item.productId)
    let productDetails := Product.findIn products productIds
    match stockCheck req.productsOrdered productDetails with
    | .error e => (⟨500, "Error placing order", some e, none, none⟩, orders)
    | .ok false => (⟨400, "One or more products are out of stock.", none, none, none⟩, orders)
    | .ok true =>
      let fields : OrderFields :=
        { userId := req.userId, orderId := orderId, date := req.date, time := req.time,
          address := req.address, email := user.email, name := user.name,
          productIds := productIds, trackingId := trackingId, price := req.price }
      match Order.save orders fields with
      | .error e => (⟨500, "Error placing order", some e, none, none⟩, orders)
      | .ok orders' =>
        match mail with
        | .error e => (⟨500, "Error placing order", some e, none, none⟩, orders')
        | .ok _ => (⟨200, "Order placed successfully", none, some orderId, some trackingId⟩, orders')

/-! ## Coupon model and routes (`models/couponmodel.js`, `routes/coupon.js`) -/

/-- A coupon document; `expirationDate` is a timestamp, `none` when the path is absent. -/
structure Coupon where
  code : String
  discountPercentage : Int
  expirationDate : Option Int
  usageLimit : Int
  isActive : Bool
  deriving DecidableEq, Repr

/-- Document validation of `couponSchema`: `code` required, `discountPercentage` within
`min: 1` and `max: 100`, `expirationDate` required. -/
def Coupon.validate (k : Coupon) : Bool :=
  k.code != "" && decide (1 ≤ k.discountPercentage) && decide (k.discountPercentage ≤ 100) &&
    k.expirationDate.isSome

/-- Response of the coupon routes that carry no payload. -/
structure CouponResponse where
  status : Nat
  success : Bool
  message : String
  deriving DecidableEq, Repr

/-- Falsiness of a string field of the body: absent or empty. -/
def falsyString : Option String → Bool
  | some s => s == ""
  | none => true

/-- Falsiness of a numeric field of the body: absent or zero. -/
def falsyNumber : Option Int → Bool
  | some n => n == 0
  | none => true

/-- The filter `{ code, discountPercentage }` of `findOneAndDelete`. -/
def couponMatches (code : String) (discountPercentage : Int) (k : Coupon) : Bool :=
  k.code == code && k.discountPercentage == discountPercentage

/-- Handler of `DELETE /delete-coupon`.  The broadcast `sendEmailToAllUsers` catches and logs
every error of its own, so it has no part in the response. -/
def deleteCoupon (coupons : List Coupon) (code : Option String) (discountPercentage : Option Int) :
    CouponResponse × List Coupon :=
  if falsyString code || falsyNumber discountPercentage then
    (⟨400, false, "Coupon code and discount percentage are required."⟩, coupons)
  else
    match code, discountPercentage with
    | some c, some d =>
      match coupons.find? (couponMatches c d) with
      | none => (⟨404, false, "Coupon not found"⟩, coupons)
      | some _ => (⟨200, true, "Coupon deleted successfully"⟩, coupons.eraseP (couponMatches c d))
    | _, _ => (⟨400, false, "Coupon code and discount percentage are required."⟩, coupons)

/-! ## Cart routes: quantity update and item removal (`routes/cart.js`) -/

/-- The assignment `product.productQty = productQty` where `product` is the first line item with
the given `productId`. -/
def setQty (productId : String) (productQty : ℚ) : List LineItem → List LineItem
  | [] => []
  | item :: rest =>
    if item.productId == productId then { item with productQty := some productQty } :: rest
    else item :: setQty productId productQty rest

/-- Response of the routes that answer with a message only. -/
structure MessageResponse where
  status : Nat
  message : String
  deriving DecidableEq, Repr

/-- Handler of `PUT /update-quantity`.  An absent `userId` or `productId` is the empty string;
`productQty` is `none` when the field of the body is not of type number.  The line items are
compared with `productId` as strings. -/
def updateQuantity (carts : List Cart) (userId productId : String) (productQty : Option ℚ) :
    MessageResponse × List Cart :=
  match productQty with
  | none => (⟨400, "Valid userId, productId, and productQty are required."⟩, carts)
  | some n =>
    if userId == "" || productId == "" || decide (n ≤ 0) then
      (⟨400, "Valid userId, productId, and productQty are required."⟩, carts)
    else
      match Cart.findOne carts userId with
      | .castError _ => (⟨500, "An error occurred while updating the quantity."⟩, carts)
      | .missing => (⟨404, "Cart not found."⟩, carts)
      | .found cart =>
        match cart.productsInCart.find? (fun item => item.productId == productId) with
        | none => (⟨404, "Product not found in the cart."⟩, carts)
        | some _ =>
          match Cart.saveExisting carts
              { cart with productsInCart := setQty productId n cart.productsInCart } with
          | some carts' => (⟨200, "Quantity updated successfully."⟩, carts')
          | none => (⟨500, "An error occurred while updating the quantity."⟩, carts)

/-- Handler of `POST /delete-items`.  An absent `userId` or `productId` is the empty string.  The
line items are compared with `productId` as strings. -/
def removeItem (carts : List Cart) (userId productId : String) : MessageResponse × List Cart :=
  if userId == "" || productId == "" then
    (⟨400, "userId and productId are required."⟩, carts)
  else
    match Cart.findOne carts userId with
    | .castError _ => (⟨500, "An error occurred while deleting the item."⟩, carts)
    | .missing => (⟨404, "Cart not found."⟩, carts)
    | .found cart =>
      match cart.productsInCart.find? (fun item => item.productId == productId) with
      | none => (⟨404, "Product not found in the cart."⟩, carts)
      | some _ =>
        match Cart.saveExisting carts
            { cart with productsInCart :=
                cart.productsInCart.filter (fun item => item.productId != productId) } with
        | some carts' => (⟨200, "Item deleted successfully."⟩, carts')
        | none => (⟨500, "An error occurred while deleting the item."⟩, carts)

/-- A request to one of the three routes that write the cart collection. -/
inductive CartRequest where
  | addToCart (userId productId : String) (productQty : Option Int)
  | updateQuantity (userId productId : String) (productQty : Option ℚ)
  | removeItem (userId productId : String)
  deriving DecidableEq, Repr

/-- Status of the response to a cart request. -/
def cartStatus (carts : List Cart) : CartRequest → Nat
  | .addToCart u p q => (addToCart carts u p q).1.status
  | .updateQuantity u p q => (updateQuantity carts u p q).1.status
  | .removeItem u p => (removeItem carts u p).1.status

/-- The cart collection after a cart request. -/
def cartStep (carts : List Cart) : CartRequest → List Cart
  | .addToCart u p q => (addToCart carts u p q).2
  | .updateQuantity u p q => (updateQuantity carts u p q).2
  | .removeItem u p => (removeItem carts u p).2

/-- The cart collection after a sequence of cart requests served one after the other. -/
def cartRun (carts : List Cart) (requests : List CartRequest) : List Cart :=
  requests.foldl cartStep carts

/-! ## Coupon routes: verification and creation (`routes/coupon.js`) -/

/-- The static `validateCoupon` of `couponSchema`; `now` is the value of `new Date()`. -/
def Coupon.validateCoupon (coupons : List Coupon) (now : Int) (code : String) : Option Coupon :=
  coupons.find? (fun k =>
    k.code == code && k.isActive &&
      (match k.expirationDate with
       | some t => decide (now ≤ t)
       | none => false) &&
      decide (0 < k.usageLimit))

/-- Response of `POST /verify-coupon`. -/
structure VerifyCouponResponse where
  status : Nat
  success : Bool
  message : Option String
  discountPercentage : Option Int
  deriving DecidableEq, Repr

/-- Handler of `POST /verify-coupon`. -/
def verifyCoupon (coupons : List Coupon) (code : Option String) : VerifyCouponResponse :=
  match code with
  | none => ⟨400, false, some "Coupon code is required.", none⟩
  | some c =>
    if c == "" then ⟨400, false, some "Coupon code is required.", none⟩
    else
      match coupons.find? (fun k => k.code == c) with
      | none => ⟨404, false, some "Invalid coupon code", none⟩
      | some coupon => ⟨200, true, none, some coupon.discountPercentage⟩

/-- The call `coupon.save()` on a document made by `new Coupon(...)`: validation, then insertion
under the unique index of `code`. -/
def Coupon.saveNew (coupons : List Coupon) (k : Coupon) : Except String (List Coupon) :=
  if !k.validate then .error "Coupon validation failed"
  else if coupons.any (fun x => x.code == k.code) then .error "E11000 duplicate key error"
  else .ok (coupons ++ [k])

/-- Response of `POST /save-coupon`. -/
structure SaveCouponResponse where
  status : Nat
  success : Bool
  message : String
  error : Option String
  coupon : Option Coupon
  deriving DecidableEq, Repr

/-- Handler of `POST /save-coupon`.  The document is built from `code` and `discountPercentage`
alone: `expirationDate` is absent, `usageLimit` and `isActive` take their schema defaults.  The
broadcast after the save catches and logs every error of its own. -/
def saveCoupon (coupons : List Coupon) (code : Option String) (discountPercentage : Option Int) :
    SaveCouponResponse × List Coupon :=
  if falsyString code || falsyNumber discountPercentage then
    (⟨400, false, "Coupon code and discount percentage are required.", none, none⟩, coupons)
  else
    match code, discountPercentage with
    | some c, some d =>
      let coupon : Coupon :=
        { code := c, discountPercentage := d, expirationDate := none, usageLimit := 1,
          isActive := true }
      match Coupon.saveNew coupons coupon with
      | .error e => (⟨500, false, "Error saving coupon", some e, none⟩, coupons)
      | .ok coupons' => (⟨201, true, "Coupon saved successfully", none, some coupon⟩, coupons')
    | _, _ =>
      (⟨400, false, "Coupon code and discount percentage are required.", none, none⟩, coupons)

/-! ## Complaint routes (`routes/complaints.js`) -/

/-- The expression `Math.floor(100000 + Math.random() * 900000)` of `routes/cart.js` (orderId)
and `routes/complaints.js` (complaintNumber), for the draw `r` of `Math.random()`. -/
def sixDigitDraw (r : ℚ) : ℤ := ⌊100000 + r * 900000⌋

/-- The expression `Math.floor(100000 + Math.random() * 900000).toString()`. -/
def sixDigitId (r : ℚ) : String := toString (sixDigitDraw r)

/-- Response of `POST /post-complaints` and `PUT /update-complaint-status`. -/
structure ComplaintResponse where
  status : Nat
  success : Bool
  message : String
  error : Option String
  complaint : Option Complaint
  deriving DecidableEq, Repr

/-- Handler of `POST /post-complaints`.  `r` is the draw of `Math.random()`, `mail` the outcome
of `transporter.sendMail` inside `sendConfirmationEmail`, which logs a rejection and throws it
again. -/
def fileComplaint (complaints : List Complaint) (name email message userType : Option String)
    (r : ℚ) (mail : Except String Unit) : ComplaintResponse × List Complaint :=
  if falsyString name || falsyString email || falsyString message || falsyString userType then
    (⟨400, false, "All fields (name, email, message, userType) are required.", none, none⟩,
      complaints)
  else
    let complaintNumber := sixDigitId r
    match Complaint.saveNew complaints
        { complaintNumber := some complaintNumber, name := name, email := email,
          message := message, userType := userType, status := none } with
    | .error e => (⟨500, false, "Error registering complaint", some e, none⟩, complaints)
    | .ok complaints' =>
      match mail with
      | .error e => (⟨500, false, "Error registering complaint", some e, none⟩, complaints')
      | .ok _ =>
        (⟨201, true, "Complaint registered successfully", none, complaints'.getLast?⟩,
          complaints')

/-- The update `{ $set: { status } }` applied to the first complaint with the given number. -/
def setStatus (complaintId status : String) : List Complaint → List Complaint
  | [] => []
  | c :: rest =>
    if c.complaintNumber == complaintId then { c with status := status } :: rest
    else c :: setStatus complaintId status rest

/-- Handler of `PUT /update-complaint-status`: `findOneAndUpdate` with `{ new: true }`, which
runs no schema validator on the update. -/
def updateComplaintStatus (complaints : List Complaint) (complaintId status : Option String) :
    ComplaintResponse × List Complaint :=
  if falsyString complaintId || falsyString status then
    (⟨400, false, "complaintId and status are required.", none, none⟩, complaints)
  else
    match complaintId, status with
    | some id, some st =>
      match complaints.find? (fun c => c.complaintNumber == id) with
      | none => (⟨404, false, "Complaint not found", none, none⟩, complaints)
      | some c =>
        (⟨200, true, "Complaint status updated successfully", none, some { c with status := st }⟩,
          setStatus id st complaints)
    | _, _ => (⟨400, false, "complaintId and status are required.", none, none⟩, complaints)

/-! ## Seller identifiers (`routes/adminauth.js`, `routes/auth.js`, `models/seller.js`) -/

/-- A seller document: the paths declared by `SellerSchema`. -/
structure Seller where
  name : String
  email : String
  password : String
  sellerId : String
  emailVerified : Bool
  phoneVerified : Bool
  phoneNumber : String
  businessName : String
  businessAddress : String
  businessType : String
  otp : Option String
  loggedIn : String
  deriving DecidableEq, Repr

/-- The expression `Math.floor(10000 + Math.random() * 90000)` for the draw `r`. -/
def sellerNumber (r : ℚ) : ℤ := ⌊10000 + r * 90000⌋

/-- The loop of `generateUniqueSellerId` (`routes/adminauth.js`), which is also the loop written
inline in `POST /seller/signup` (`routes/auth.js`): each round takes the next draw of
`Math.random()`, forms the identifier and queries `Seller.findOne({ sellerId })`.  `none` means
that the draws given were all used up without the loop stopping. -/
def generateUniqueSellerId (sellers : List Seller) : List ℚ → Option String
  | [] => none
  | r :: draws =>
    let sellerId := "MBSLR" ++ toString (sellerNumber r)
    match sellers.find? (fun s => s.sellerId == sellerId) with
    | none => some sellerId
    | some _ => generateUniqueSellerId sellers draws

/-! ## Sample library instances

Stand-ins for the library parameters, used to run the handlers on concrete inputs. -/

/-- A stand-in for bcrypt: the digest is the two-character salt followed by the data. -/
def sampleBcrypt : Bcrypt where
  hash data salt := ⟨salt.data ++ data.data⟩
  saltOf digest := ⟨digest.data.take 2⟩

/-- A stand-in for the `validator` package: an email has an `@`, a phone number has ten
characters. -/
def sampleValidator : Validator where
  isEmail s := s.data.contains '@'
  isMobilePhone s := s.data.length == 10

/-- A registration body used in examples. -/
def sampleSignup : SignupRequest :=
  { name := "Ann", email := "ann@shop.io", password := "secret", phone := "9876543210" }

/-- A registered user used in examples. -/
def sampleUser : User :=
  { id := "65a1f0c2e4b0a1b2c3d4e5f6", name := "Ann", email := "ann@shop.io",
    password := "s2s1secret", userId := "a1b2c3d4e5f60718", accountStatus := "open",
    phone := "9876543210" }

/-- A stored product with ten units in stock. -/
def samplePen : Product :=
  { name := "Pen", price := 3, img := "pen.png", category := "office", rating := 0,
    productId := "p1", inStockValue := 10, soldStockValue := 0, visibility := "on" }

/-- An order body for the given user key and line items. -/
def sampleOrder (userId : String) (items : List OrderItem) : PlaceOrderRequest :=
  { userId := userId, date := "2024-05-01", time := "10:00", address := "1 Main St", price := 30,
    productsOrdered := items }

/-- Two stored coupons used in examples. -/
def sampleCoupons : List Coupon :=
  [{ code := "SAVE10", discountPercentage := 10, expirationDate := some 1767225600000,
     usageLimit := 1, isActive := true },
   { code := "WELCOME", discountPercentage := 20, expirationDate := some 1767225600000,
     usageLimit := 5, isActive := true }]

/-- Two stored carts used in examples. -/
def sampleCarts : List Cart :=
  [{ userId := "65a1f0c2e4b0a1b2c3d4e5f6",
     productsInCart :=
       [⟨"64b7c1d2e3f4a5b6c7d8e9f1", some 2⟩, ⟨"64b7c1d2e3f4a5b6c7d8e9f2", some 1⟩] },
   { userId := "65a1f0c2e4b0a1b2c3d4e5f7",
     productsInCart := [⟨"64b7c1d2e3f4a5b6c7d8e9f1", some 3⟩] }]

/-- A product whose two stock counters are 2^53. -/
def sampleBulk : Product :=
  { name := "Grain", price := 1, img := "grain.png", category := "bulk", rating := 0,
    productId := "p9", inStockValue := 9007199254740992, soldStockValue := 9007199254740992,
    visibility := "on" }

/-- A stored seller used in examples. -/
def sampleSeller : Seller :=
  { name := "Cara", email := "cara@shop.io", password := "s2s1secret", sellerId := "MBSLR55000",
    emailVerified := false, phoneVerified := false, phoneNumber := "9876543210",
    businessName := "Cara Crafts", businessAddress := "2 Side St", businessType := "retail",
    otp := none, loggedIn := "loggedout" }

/-! ## Theorems -/

/-! ### Cart: adding a product twice -/

theorem addToCart_without_cart (carts : List Cart) (u p : String) (q : Option Int)
    (hq : jsLeZero q = false) (hno : ∀ cart, Cart.findOne carts u ≠ .found cart) :
    addToCart carts u p q = (⟨500, "Error adding product to cart", none⟩, carts) := by
  cases hf : Cart.findOne carts u with
  | castError e => simp [addToCart, hq, hf]
  | missing =>
    simp [addToCart, hq, hf, Cart.saveNew, Cart.validate, LineItem.cast, LineItem.valid]
  | found cart => exact absurd hf (hno cart)

/-- C1.  For a user without a cart, `addToCart(u, p, q1)` followed by `addToCart(u, p, q2)` with
positive quantities does not leave a cart with one line item of quantity `q1 + q2`: the route
builds the first line item under the key `quantity`, which `cartSchema` does not declare, so the
required `productQty` is absent, both saves are rejected with status 500 and the user still has no
cart. -/
theorem addToCart_twice_without_cart (carts : List Cart) (u p : String) (q1 q2 : Int)
    (h1 : 0 < q1) (h2 : 0 < q2) (hno : ∀ cart, Cart.findOne carts u ≠ .found cart) :
    (addToCart carts u p (some q1)).1.status = 500 ∧
      (addToCart (addToCart carts u p (some q1)).2 u p (some q2)).1.status = 500 ∧
      (addToCart (addToCart carts u p (some q1)).2 u p (some q2)).2 = carts ∧
      (∀ cart,
        Cart.findOne (addToCart (addToCart carts u p (some q1)).2 u p (some q2)).2 u ≠
          .found cart) ∧
      Cart.findOne (addToCart (addToCart carts u p (some q1)).2 u p (some q2)).2 u =
        Cart.findOne carts u := by
  have e1 : jsLeZero (some q1) = false := by simp [jsLeZero]; omega
  have e2 : jsLeZero (some q2) = false := by simp [jsLeZero]; omega
  have k1 := addToCart_without_cart carts u p (some q1) e1 hno
  have k2 := addToCart_without_cart carts u p (some q2) e2 hno
  rw [k1]
  refine ⟨rfl, ?_, ?_, ?_, ?_⟩
  · show (addToCart carts u p (some q2)).1.status = 500
    rw [k2]
  · show (addToCart carts u p (some q2)).2 = carts
    rw [k2]
  · show ∀ cart, Cart.findOne (addToCart carts u p (some q2)).2 u ≠ .found cart
    rw [k2]; exact hno
  · show Cart.findOne (addToCart carts u p (some q2)).2 u = Cart.findOne carts u
    rw [k2]

theorem addToCart_twice_without_cart_witness :
    (addToCart [] "65a1f0c2e4b0a1b2c3d4e5f6" "64b7c1d2e3f4a5b6c7d8e9f1" (some 2)).1.status = 500 ∧
      (addToCart (addToCart [] "65a1f0c2e4b0a1b2c3d4e5f6" "64b7c1d2e3f4a5b6c7d8e9f1" (some 2)).2
        "65a1f0c2e4b0a1b2c3d4e5f6" "64b7c1d2e3f4a5b6c7d8e9f1" (some 3)).1.status = 500 ∧
      (addToCart (addToCart [] "65a1f0c2e4b0a1b2c3d4e5f6" "64b7c1d2e3f4a5b6c7d8e9f1" (some 2)).2
        "65a1f0c2e4b0a1b2c3d4e5f6" "64b7c1d2e3f4a5b6c7d8e9f1" (some 3)).2 = [] ∧
      ∀ cart,
        Cart.findOne
          (addToCart
            (addToCart [] "65a1f0c2e4b0a1b2c3d4e5f6" "64b7c1d2e3f4a5b6c7d8e9f1" (some 2)).2
            "65a1f0c2e4b0a1b2c3d4e5f6" "64b7c1d2e3f4a5b6c7d8e9f1" (some 3)).2
          "65a1f0c2e4b0a1b2c3d4e5f6" ≠ .found cart :=
  have h := addToCart_twice_without_cart [] "65a1f0c2e4b0a1b2c3d4e5f6"
    "64b7c1d2e3f4a5b6c7d8e9f1" 2 3 (by decide) (by decide) (fun cart h => by
      have hm : Cart.findOne [] "65a1f0c2e4b0a1b2c3d4e5f6" = .missing := by decide
      rw [hm] at h
      cases h)
  ⟨h.1, h.2.1, h.2.2.1, h.2.2.2.1⟩

/-! ### Accounts -/

theorem find?_append_of_none {α : Type} (p : α → Bool) (l : List α) (a : α)
    (h : l.find? p = none) (ha : p a = true) : (l ++ [a]).find? p = some a := by
  simp [List.find?_append, h, ha]

/-- The document that the signup route hands to `save()`. -/
theorem signup_created (V : Validator) (B : Bcrypt) (users : List User)
    (req : SignupRequest) (salt1 salt2 userId docId : String)
    (hok : (signup V B users req salt1 salt2 userId docId).1.status = 201) :
    User.findOne users req.email = none ∧
      signup V B users req salt1 salt2 userId docId =
        (⟨201, "User registered successfully", some userId, some userId⟩,
          users ++ [User.preSave B true salt2
            { id := docId, name := req.name, email := req.email,
              password := B.hash req.password salt1, userId := userId, accountStatus := "open",
              phone := req.phone }]) := by
  unfold signup at hok ⊢
  by_cases hE : V.isEmail req.email = true
  swap
  · simp [hE] at hok
  by_cases hP : V.isMobilePhone req.phone = true
  swap
  · simp [hE, hP] at hok
  cases hF : User.findOne users req.email with
  | some u0 => simp [hE, hP, hF] at hok
  | none =>
    refine ⟨rfl, ?_⟩
    simp only [hE, hP, hF, Bool.not_true, Bool.false_eq_true, if_false] at hok ⊢
    unfold User.saveNew at hok ⊢
    by_cases hV : User.validate
        { id := docId, name := req.name, email := req.email,
          password := B.hash req.password salt1, userId := userId, accountStatus := "open",
          phone := req.phone } = true
    swap
    · simp [hV] at hok
    simp only [hV, Bool.not_true, Bool.false_eq_true, if_false] at hok ⊢
    by_cases hdup : (users.any fun x =>
        x.email == (User.preSave B true salt2
          { id := docId, name := req.name, email := req.email,
            password := B.hash req.password salt1, userId := userId, accountStatus := "open",
            phone := req.phone }).email ||
        x.userId == (User.preSave B true salt2
          { id := docId, name := req.name, email := req.email,
            password := B.hash req.password salt1, userId := userId, accountStatus := "open",
            phone := req.phone }).userId ||
        x.id == (User.preSave B true salt2
          { id := docId, name := req.name, email := req.email,
            password := B.hash req.password salt1, userId := userId, accountStatus := "open",
            phone := req.phone }).id) = true
    · rw [if_pos hdup] at hok
      simp at hok
    · rw [if_neg hdup]

/-- C2.  Register-then-login does not round-trip.  Whenever signup answers 201, the stored
password is the hash of the hash of the plaintext (the route hashes, then the pre-save hook
hashes again), the account is open, and login with the same email and the original plaintext is
answered 400 'Invalid email or password' instead of 200 with the userId.  The only assumption on
bcrypt is that the plaintext and its first digest do not collide under the stored salt. -/
theorem signup_then_login_rejected (V : Validator) (B : Bcrypt) (users : List User)
    (req : SignupRequest) (salt1 salt2 userId docId : String)
    (hsalt : B.saltOf (B.hash (B.hash req.password salt1) salt2) = salt2)
    (hcoll : B.hash req.password salt2 ≠ B.hash (B.hash req.password salt1) salt2)
    (hok : (signup V B users req salt1 salt2 userId docId).1.status = 201) :
    (signup V B users req salt1 salt2 userId docId).1.userId = some userId ∧
      (∃ u, User.findOne (signup V B users req salt1 salt2 userId docId).2 req.email = some u ∧
        u.userId = userId ∧ u.accountStatus = "open" ∧
        u.password = B.hash (B.hash req.password salt1) salt2) ∧
      login B (signup V B users req salt1 salt2 userId docId).2 req.email req.password =
        ⟨400, "Invalid email or password", none, none⟩ := by
  obtain ⟨hF, hS⟩ := signup_created V B users req salt1 salt2 userId docId hok
  rw [hS]
  have hfind : User.findOne (users ++ [User.preSave B true salt2
      { id := docId, name := req.name, email := req.email,
        password := B.hash req.password salt1, userId := userId, accountStatus := "open",
        phone := req.phone }]) req.email =
      some (User.preSave B true salt2
      { id := docId, name := req.name, email := req.email,
        password := B.hash req.password salt1, userId := userId, accountStatus := "open",
        phone := req.phone }) := by
    unfold User.findOne at hF ⊢
    exact find?_append_of_none _ _ _ hF (by simp [User.preSave])
  refine ⟨rfl, ⟨_, hfind, ?_, ?_, ?_⟩, ?_⟩
  · simp [User.preSave]
  · simp [User.preSave]
  · simp [User.preSave]
  · show login B _ req.email req.password = _
    unfold login
    rw [hfind]
    have hcmp : B.compare req.password (User.preSave B true salt2
        { id := docId, name := req.name, email := req.email,
          password := B.hash req.password salt1, userId := userId, accountStatus := "open",
          phone := req.phone }).password = false := by
      simp [Bcrypt.compare, User.preSave, hsalt, hcoll]
    simp [hcmp]

theorem signup_then_login_rejected_witness :
    (signup sampleValidator sampleBcrypt [] sampleSignup "s1" "s2" "a1b2c3d4e5f60718" "d1").1.userId
        = some "a1b2c3d4e5f60718" ∧
      (∃ u, User.findOne
          (signup sampleValidator sampleBcrypt [] sampleSignup "s1" "s2" "a1b2c3d4e5f60718" "d1").2
          sampleSignup.email = some u ∧
        u.userId = "a1b2c3d4e5f60718" ∧ u.accountStatus = "open" ∧
        u.password = sampleBcrypt.hash (sampleBcrypt.hash sampleSignup.password "s1") "s2") ∧
      login sampleBcrypt
          (signup sampleValidator sampleBcrypt [] sampleSignup "s1" "s2" "a1b2c3d4e5f60718" "d1").2
          sampleSignup.email sampleSignup.password =
        ⟨400, "Invalid email or password", none, none⟩ :=
  signup_then_login_rejected sampleValidator sampleBcrypt [] sampleSignup "s1" "s2"
    "a1b2c3d4e5f60718" "d1" (by decide) (by decide) (by decide)

/-- C8.  `checkAccountStatus` is a total function of the status string: it answers 403 for
'suspended' and 'blocked', 400 for every other value different from 'open' (so also for 'closed'),
and `null` exactly for 'open'.  Hence a login whose email is registered and whose password
matches is answered 200 if and only if the account status is 'open'. -/
theorem checkAccountStatus_spec (s : String) :
    ((s = "suspended" ∨ s = "blocked") → (checkAccountStatus s).map StatusError.status = some 403) ∧
      (s ≠ "suspended" → s ≠ "blocked" → s ≠ "open" →
        (checkAccountStatus s).map StatusError.status = some 400) ∧
      (checkAccountStatus s = none ↔ s = "open") ∧
      (checkAccountStatus "closed").map StatusError.status = some 400 ∧
      ∀ (B : Bcrypt) (users : List User) (password : String) (u : User),
        User.findOne users u.email = some u → u.accountStatus = s →
        B.compare password u.password = true →
        ((login B users u.email password).status = 200 ↔ s = "open") := by
  refine ⟨?_, ?_, ?_, ?_, ?_⟩
  · rintro (h | h) <;> subst h <;> simp [checkAccountStatus]
  · intro h1 h2 h3
    simp [checkAccountStatus, h1, h2, h3]
  · unfold checkAccountStatus
    by_cases h1 : s = "suspended"
    · subst h1; simp
    by_cases h2 : s = "blocked"
    · subst h2; simp
    by_cases h3 : s = "open"
    · subst h3; simp
    · simp [h1, h2, h3]
  · simp [checkAccountStatus]
  · intro B users password u hfind hs hcmp
    unfold login
    rw [hfind]
    simp only [hcmp, Bool.not_true, Bool.false_eq_true, if_false, hs]
    unfold checkAccountStatus
    by_cases h1 : s = "suspended"
    · subst h1; simp
    by_cases h2 : s = "blocked"
    · subst h2; simp
    by_cases h3 : s = "open"
    · subst h3; simp
    · simp [h1, h2, h3]

theorem checkAccountStatus_spec_witness :
    (checkAccountStatus "blocked").map StatusError.status = some 403 ∧
      (checkAccountStatus "frozen").map StatusError.status = some 400 ∧
      (checkAccountStatus "open" = none) ∧
      (login sampleBcrypt
        [⟨"d1", "Ann", "ann@shop.io", sampleBcrypt.hash "secret" "s1", "u1", "open", "9876543210"⟩]
        "ann@shop.io" "secret").status = 200 :=
  ⟨(checkAccountStatus_spec "blocked").1 (Or.inr rfl),
    (checkAccountStatus_spec "frozen").2.1 (by decide) (by decide) (by decide),
    (checkAccountStatus_spec "open").2.2.1.mpr rfl,
    ((checkAccountStatus_spec "open").2.2.2.2 sampleBcrypt
      [⟨"d1", "Ann", "ann@shop.io", sampleBcrypt.hash "secret" "s1", "u1", "open", "9876543210"⟩]
      "secret"
      ⟨"d1", "Ann", "ann@shop.io", sampleBcrypt.hash "secret" "s1", "u1", "open", "9876543210"⟩
      (by decide) rfl (by decide)).mpr rfl⟩

/-- C9.  Login does not tell an unregistered email from a wrong password: for every email and
password, the response when no user has the email and the response when a user has it but the
password does not match are the same response, status 400 with body 'Invalid email or password',
whatever the account status of the existing user (the password check comes before the status
gate); neither writes the session. -/
theorem login_hides_registration (B : Bcrypt) (users₁ users₂ : List User)
    (email password : String) (u : User)
    (h₁ : User.findOne users₁ email = none) (h₂ : User.findOne users₂ email = some u)
    (hpw : B.compare password u.password = false) :
    login B users₁ email password = login B users₂ email password ∧
      login B users₂ email password = ⟨400, "Invalid email or password", none, none⟩ := by
  have e₁ : login B users₁ email password = ⟨400, "Invalid email or password", none, none⟩ := by
    simp [login, h₁]
  have e₂ : login B users₂ email password = ⟨400, "Invalid email or password", none, none⟩ := by
    simp [login, h₂, hpw]
  exact ⟨e₁.trans e₂.symm, e₂⟩

theorem login_hides_registration_witness :
    login sampleBcrypt [] "ann@shop.io" "guess" =
        login sampleBcrypt
          [⟨"d1", "Ann", "ann@shop.io", sampleBcrypt.hash "secret" "s1", "u1", "suspended",
            "9876543210"⟩] "ann@shop.io" "guess" ∧
      login sampleBcrypt
          [⟨"d1", "Ann", "ann@shop.io", sampleBcrypt.hash "secret" "s1", "u1", "suspended",
            "9876543210"⟩] "ann@shop.io" "guess" =
        ⟨400, "Invalid email or password", none, none⟩ :=
  login_hides_registration sampleBcrypt []
    [⟨"d1", "Ann", "ann@shop.io", sampleBcrypt.hash "secret" "s1", "u1", "suspended",
      "9876543210"⟩] "ann@shop.io" "guess"
    ⟨"d1", "Ann", "ann@shop.io", sampleBcrypt.hash "secret" "s1", "u1", "suspended", "9876543210"⟩
    (by decide) (by decide) (by decide)

/-! ### Order placement -/

theorem jsGe_stock (p : Product) (q : Option Int) : jsGe p.stock q = false := by
  simp [Product.stock, jsGe]

theorem stockCheck_cons (items : List OrderItem) (p : Product) (rest : List Product)
    (h : ∃ item ∈ items, item.productId = p.productId) :
    stockCheck items (p :: rest) = .ok false := by
  obtain ⟨item, hmem, hid⟩ := h
  unfold stockCheck
  cases hf : items.find? (fun item => item.productId == p.productId) with
  | none =>
    rw [List.find?_eq_none] at hf
    exact absurd (by simpa using hid) (hf item hmem)
  | some found => simp [jsGe_stock]

theorem mem_findIn (products : List Product) (ids : List String) (p : Product) :
    p ∈ Product.findIn products ids ↔ p ∈ products ∧ p.productId ∈ ids := by
  simp [Product.findIn, List.mem_filter]

/-- The stock check over the fetched products passes exactly when no product was fetched. -/
theorem stockCheck_findIn (items : List OrderItem) (products : List Product) :
    stockCheck items (Product.findIn products (items.map (fun item => item.productId))) =
      .ok (Product.findIn products (items.map (fun item => item.productId))).isEmpty := by
  cases hl : Product.findIn products (items.map (fun item => item.productId)) with
  | nil => rfl
  | cons p rest =>
    have hp : p ∈ Product.findIn products (items.map (fun item => item.productId)) := by
      rw [hl]; exact List.mem_cons_self _ _
    rw [mem_findIn, List.mem_map] at hp
    obtain ⟨_, item, hitem, hid⟩ := hp
    rw [stockCheck_cons items p rest ⟨item, hitem, hid⟩]
    rfl

theorem placeOrder_of_fetched {D : Type} (Order : OrderModel D) (users : List User)
    (products : List Product) (orders : List D) (req : PlaceOrderRequest)
    (orderId trackingId : String) (mail : Except String Unit) (user : User) (p : Product)
    (hu : User.findById users req.userId = .found user)
    (hp : p ∈ Product.findIn products (req.productsOrdered.map (fun item => item.productId))) :
    placeOrder Order users products orders req orderId trackingId mail =
      (⟨400, "One or more products are out of stock.", none, none, none⟩, orders) := by
  unfold placeOrder
  simp only [hu]
  rw [stockCheck_findIn]
  cases hl : Product.findIn products (req.productsOrdered.map (fun item => item.productId)) with
  | nil => rw [hl] at hp; exact absurd hp (List.not_mem_nil _)
  | cons x rest => rfl

theorem placeOrder_store {D : Type} (Order : OrderModel D) (users : List User)
    (products : List Product) (orders : List D) (req : PlaceOrderRequest)
    (orderId trackingId : String) (mail : Except String Unit)
    (hne : Product.findIn products (req.productsOrdered.map (fun item => item.productId)) ≠ []) :
    (placeOrder Order users products orders req orderId trackingId mail).2 = orders := by
  unfold placeOrder
  cases hu : User.findById users req.userId with
  | castError e => rfl
  | missing => rfl
  | found user =>
    simp only []
    rw [stockCheck_findIn]
    cases hl : Product.findIn products (req.productsOrdered.map (fun item => item.productId)) with
    | nil => exact absurd hl hne
    | cons x rest => rfl

/-- With the model that `routes/cart.js` imports as `Order`, no request is answered 200 and no
request writes a document: the required paths `complaintNumber`, `message` and `userType` are
never supplied. -/
theorem placeOrder_complaintAsOrder_never_succeeds (users : List User) (products : List Product)
    (orders : List Complaint) (req : PlaceOrderRequest) (orderId trackingId : String)
    (mail : Except String Unit) :
    (placeOrder complaintAsOrder users products orders req orderId trackingId mail).1.status ≠ 200 ∧
      (placeOrder complaintAsOrder users products orders req orderId trackingId mail).2 = orders := by
  unfold placeOrder
  cases hu : User.findById users req.userId with
  | castError e => simp
  | missing => simp
  | found user =>
    simp only []
    rw [stockCheck_findIn]
    cases hl : Product.findIn products (req.productsOrdered.map (fun item => item.productId)) with
    | nil => simp [complaintAsOrder, Complaint.saveNew, Complaint.validate, requiredString]
    | cons x rest => simp

/-- C3 as stated fails: with an unknown `userId` a request whose line item exceeds the stock of
its stored product (50 ordered, 10 in stock) is answered 500, not the 400 stock error. -/
theorem placeOrder_short_stock_unknown_user :
    samplePen.productId = "p1" ∧ samplePen.inStockValue < 50 ∧
      User.findById [sampleUser] "000000000000000000000000" = .missing ∧
      placeOrder complaintAsOrder [sampleUser] [samplePen] []
          (sampleOrder "000000000000000000000000" [⟨"p1", some 50⟩]) "123456" "K3J9X2" (.ok ()) =
        (⟨500, "Error placing order", some "User not found", none, none⟩, []) := by
  decide

/-- C3, amended.  For every placeOrder request in which some line item's ordered quantity
exceeds the available stock (`inStockValue`) of its stored product, no order is persisted, and if
the request's user exists the response is the stock error (400, 'One or more products are out of
stock.'). -/
theorem placeOrder_short_stock {D : Type} (Order : OrderModel D) (users : List User)
    (products : List Product) (orders : List D) (req : PlaceOrderRequest)
    (orderId trackingId : String) (mail : Except String Unit)
    (hshort : ∃ item ∈ req.productsOrdered, ∃ p ∈ products, p.productId = item.productId ∧
      ∃ q, item.quantity = some q ∧ p.inStockValue < q) :
    (placeOrder Order users products orders req orderId trackingId mail).2 = orders ∧
      ∀ user, User.findById users req.userId = .found user →
        (placeOrder Order users products orders req orderId trackingId mail).1 =
          ⟨400, "One or more products are out of stock.", none, none, none⟩ := by
  obtain ⟨item, hitem, p, hp, hid, _⟩ := hshort
  have hmem : p ∈ Product.findIn products (req.productsOrdered.map (fun item => item.productId)) := by
    rw [mem_findIn, List.mem_map]
    exact ⟨hp, item, hitem, hid.symm⟩
  refine ⟨placeOrder_store Order users products orders req orderId trackingId mail
    (List.ne_nil_of_mem hmem), ?_⟩
  intro user hu
  rw [placeOrder_of_fetched Order users products orders req orderId trackingId mail user p hu hmem]

theorem placeOrder_short_stock_witness :
    (placeOrder complaintAsOrder [sampleUser] [samplePen] []
        (sampleOrder sampleUser.id [⟨"p1", some 50⟩]) "123456" "K3J9X2" (.ok ())).2 = [] ∧
      (placeOrder complaintAsOrder [sampleUser] [samplePen] []
        (sampleOrder sampleUser.id [⟨"p1", some 50⟩]) "123456" "K3J9X2" (.ok ())).1 =
        ⟨400, "One or more products are out of stock.", none, none, none⟩ :=
  have h := placeOrder_short_stock complaintAsOrder [sampleUser] [samplePen] []
    (sampleOrder sampleUser.id [⟨"p1", some 50⟩]) "123456" "K3J9X2" (.ok ())
    ⟨⟨"p1", some 50⟩, by decide, samplePen, by decide, by decide, 50, rfl, by decide⟩
  ⟨h.1, h.2 sampleUser (by decide)⟩

/-- C4.  A request whose user exists and whose line items all name stored products with enough
stock (`inStockValue` at least the ordered quantity) is not accepted: as soon as it has a line
item, the response is the 400 stock error and no order is persisted, because the check compares
`product.stock`, a property that no Product document has. -/
theorem placeOrder_stocked_rejected {D : Type} (Order : OrderModel D) (users : List User)
    (products : List Product) (orders : List D) (req : PlaceOrderRequest)
    (orderId trackingId : String) (mail : Except String Unit) (user : User)
    (hu : User.findById users req.userId = .found user)
    (hne : req.productsOrdered ≠ [])
    (hall : ∀ item ∈ req.productsOrdered, ∃ p ∈ products, p.productId = item.productId ∧
      ∃ q, item.quantity = some q ∧ q ≤ p.inStockValue) :
    placeOrder Order users products orders req orderId trackingId mail =
      (⟨400, "One or more products are out of stock.", none, none, none⟩, orders) := by
  obtain ⟨item, hitem⟩ := List.exists_mem_of_ne_nil _ hne
  obtain ⟨p, hp, hid, _⟩ := hall item hitem
  have hmem : p ∈ Product.findIn products (req.productsOrdered.map (fun item => item.productId)) := by
    rw [mem_findIn, List.mem_map]
    exact ⟨hp, item, hitem, hid.symm⟩
  exact placeOrder_of_fetched Order users products orders req orderId trackingId mail user p hu hmem

theorem placeOrder_stocked_rejected_witness :
    placeOrder complaintAsOrder [sampleUser] [samplePen] []
        (sampleOrder sampleUser.id [⟨"p1", some 1⟩]) "123456" "K3J9X2" (.ok ()) =
      (⟨400, "One or more products are out of stock.", none, none, none⟩, []) :=
  placeOrder_stocked_rejected complaintAsOrder [sampleUser] [samplePen] []
    (sampleOrder sampleUser.id [⟨"p1", some 1⟩]) "123456" "K3J9X2" (.ok ()) sampleUser
    (by decide) (by decide)
    (fun item hitem => ⟨samplePen, by decide, by
      have : item = ⟨"p1", some 1⟩ := by simpa [sampleOrder] using hitem
      subst this; decide, 1, by
      have : item = ⟨"p1", some 1⟩ := by simpa [sampleOrder] using hitem
      subst this; rfl, by decide⟩)

theorem findIn_unstored (products : List Product) (items : List OrderItem)
    (hghost : ∀ item ∈ items, ∀ p ∈ products, p.productId ≠ item.productId) :
    Product.findIn products (items.map (fun item => item.productId)) = [] := by
  rw [List.eq_nil_iff_forall_not_mem]
  intro p hp
  rw [mem_findIn, List.mem_map] at hp
  obtain ⟨hp, item, hitem, hid⟩ := hp
  exact hghost item hitem p hp hid.symm

/-- Past the user and stock checks the handler of the repository, whose `Order` is the complaint
model, fails at `order.save()` whatever the mail outcome: status 500, nothing written. -/
theorem placeOrder_past_checks (users : List User) (products : List Product)
    (orders : List Complaint) (req : PlaceOrderRequest) (orderId trackingId : String)
    (mail : Except String Unit) (user : User)
    (hu : User.findById users req.userId = .found user)
    (hcheck : stockCheck req.productsOrdered
      (Product.findIn products (req.productsOrdered.map (fun item => item.productId))) = .ok true) :
    placeOrder complaintAsOrder users products orders req orderId trackingId mail =
      (⟨500, "Error placing order", some "Complaint validation failed", none, none⟩, orders) := by
  unfold placeOrder
  simp only [hu, hcheck]
  simp [complaintAsOrder, Complaint.saveNew, Complaint.validate, requiredString]

/-- Past the user and stock checks the handler hands the order to `order.save()`, whatever model
is bound to `Order`, and answers 200 only if both the save and the mail dispatch succeed. -/
theorem placeOrder_checked {D : Type} (Order : OrderModel D) (users : List User)
    (products : List Product) (orders : List D) (req : PlaceOrderRequest)
    (orderId trackingId : String) (mail : Except String Unit) (user : User)
    (hu : User.findById users req.userId = .found user)
    (hcheck : stockCheck req.productsOrdered
      (Product.findIn products (req.productsOrdered.map (fun item => item.productId))) = .ok true) :
    placeOrder Order users products orders req orderId trackingId mail =
      match Order.save orders
          { userId := req.userId, orderId := orderId, date := req.date, time := req.time,
            address := req.address, email := user.email, name := user.name,
            productIds := req.productsOrdered.map (fun item => item.productId),
            trackingId := trackingId, price := req.price } with
      | .error e => (⟨500, "Error placing order", some e, none, none⟩, orders)
      | .ok orders' =>
        match mail with
        | .error e => (⟨500, "Error placing order", some e, none, none⟩, orders')
        | .ok _ =>
          (⟨200, "Order placed successfully", none, some orderId, some trackingId⟩, orders') := by
  unfold placeOrder
  simp only [hu, hcheck]

/-- C5.  A line item whose product is not stored slips past the stock check.  When the user
exists and no ordered product is stored, the check is true (`every` runs over the fetched
products, and none is fetched), so the response is not the 400 stock error: the handler goes on
to `order.save()`, which the repository's `Order` (the complaint model) rejects, and answers 500
'Error placing order'.  Nothing is persisted, but not because the check covered the line
item: whatever model is bound to `Order`, the request reaches its `save` with the unstored
product ids among `productIds`, and what that `save` writes is persisted. -/
theorem placeOrder_unstored_items_pass (users : List User) (products : List Product)
    (orders : List Complaint) (req : PlaceOrderRequest) (orderId trackingId : String)
    (mail : Except String Unit) (user : User)
    (hu : User.findById users req.userId = .found user)
    (hghost : ∀ item ∈ req.productsOrdered, ∀ p ∈ products, p.productId ≠ item.productId) :
    stockCheck req.productsOrdered
        (Product.findIn products (req.productsOrdered.map (fun item => item.productId))) =
        .ok true ∧
      (placeOrder complaintAsOrder users products orders req orderId trackingId mail).1.status
        = 500 ∧
      (placeOrder complaintAsOrder users products orders req orderId trackingId mail).1.message
        = "Error placing order" ∧
      (placeOrder complaintAsOrder users products orders req orderId trackingId mail).1.status
        ≠ 400 ∧
      (placeOrder complaintAsOrder users products orders req orderId trackingId mail).2
        = orders ∧
      ∀ (D : Type) (Order : OrderModel D) (stored : List D),
        (placeOrder Order users products stored req orderId trackingId mail).1.status ≠ 400 ∧
        (placeOrder Order users products stored req orderId trackingId mail).2 =
          match Order.save stored
              { userId := req.userId, orderId := orderId, date := req.date, time := req.time,
                address := req.address, email := user.email, name := user.name,
                productIds := req.productsOrdered.map (fun item => item.productId),
                trackingId := trackingId, price := req.price } with
          | .error _ => stored
          | .ok stored' => stored' := by
  have hnil := findIn_unstored products req.productsOrdered hghost
  have hcheck := stockCheck_findIn req.productsOrdered products
  rw [hnil] at hcheck
  have hcheck' : stockCheck req.productsOrdered
      (Product.findIn products (req.productsOrdered.map (fun item => item.productId))) =
      .ok true := by rw [hnil]; exact hcheck
  rw [placeOrder_past_checks users products orders req orderId trackingId mail user hu hcheck']
  refine ⟨hcheck', rfl, rfl, ?_, rfl, ?_⟩
  · show (500 : Nat) ≠ 400
    decide
  · intro D Order stored
    rw [placeOrder_checked Order users products stored req orderId trackingId mail user hu
      hcheck']
    cases Order.save stored
        { userId := req.userId, orderId := orderId, date := req.date, time := req.time,
          address := req.address, email := user.email, name := user.name,
          productIds := req.productsOrdered.map (fun item => item.productId),
          trackingId := trackingId, price := req.price } with
    | error e => exact ⟨by simp, rfl⟩
    | ok stored' =>
      cases mail with
      | error e => exact ⟨by simp, rfl⟩
      | ok u => exact ⟨by simp, rfl⟩

theorem placeOrder_unstored_items_pass_witness :
    stockCheck [⟨"ghost", some 5⟩] (Product.findIn [samplePen] ["ghost"]) = .ok true ∧
      (placeOrder complaintAsOrder [sampleUser] [samplePen] []
        (sampleOrder sampleUser.id [⟨"ghost", some 5⟩]) "123456" "K3J9X2" (.ok ())).1.status
        = 500 ∧
      (placeOrder complaintAsOrder [sampleUser] [samplePen] []
        (sampleOrder sampleUser.id [⟨"ghost", some 5⟩]) "123456" "K3J9X2" (.ok ())).1.message
        = "Error placing order" ∧
      (placeOrder complaintAsOrder [sampleUser] [samplePen] []
        (sampleOrder sampleUser.id [⟨"ghost", some 5⟩]) "123456" "K3J9X2" (.ok ())).1.status
        ≠ 400 ∧
      (placeOrder complaintAsOrder [sampleUser] [samplePen] []
        (sampleOrder sampleUser.id [⟨"ghost", some 5⟩]) "123456" "K3J9X2" (.ok ())).2 = [] :=
  have h := placeOrder_unstored_items_pass [sampleUser] [samplePen] []
    (sampleOrder sampleUser.id [⟨"ghost", some 5⟩]) "123456" "K3J9X2" (.ok ()) sampleUser
    (by decide) (by decide)
  ⟨h.1, h.2.1, h.2.2.1, h.2.2.2.1, h.2.2.2.2.1⟩

/-- C6.  No request gets the success response that the claim describes.  A request that passes
the user and stock checks is answered 500 'Error placing order' and writes no order, whether the
confirmation email would be sent or would fail: `order.save()` is rejected first, because the
`Order` of `routes/cart.js` is the complaint model and its required `complaintNumber`, `message`
and `userType` are never supplied, so the mail dispatch is not reached.  Nor would a failure of
the dispatch be swallowed if it were reached: whatever model is bound to `Order`, a request
whose email fails to send is answered 500, since `sendMail` is awaited inside the `try` block. -/
theorem placeOrder_save_rejected (users : List User) (products : List Product)
    (orders : List Complaint) (req : PlaceOrderRequest) (orderId trackingId : String)
    (user : User)
    (hu : User.findById users req.userId = .found user)
    (hcheck : stockCheck req.productsOrdered
      (Product.findIn products (req.productsOrdered.map (fun item => item.productId))) = .ok true) :
    ∀ mail : Except String Unit,
      (placeOrder complaintAsOrder users products orders req orderId trackingId mail).1.status
          = 500 ∧
        (placeOrder complaintAsOrder users products orders req orderId trackingId mail).1.message
          = "Error placing order" ∧
        (placeOrder complaintAsOrder users products orders req orderId trackingId mail).1.orderId
          = none ∧
        (placeOrder complaintAsOrder users products orders req orderId trackingId
          mail).1.trackingId = none ∧
        (placeOrder complaintAsOrder users products orders req orderId trackingId mail).2
          = orders ∧
        ∀ (D : Type) (Order : OrderModel D) (stored : List D) (e : String),
          (placeOrder Order users products stored req orderId trackingId (.error e)).1.status
            = 500 := by
  intro mail
  rw [placeOrder_past_checks users products orders req orderId trackingId mail user hu hcheck]
  refine ⟨rfl, rfl, rfl, rfl, rfl, ?_⟩
  intro D Order stored e
  rw [placeOrder_checked Order users products stored req orderId trackingId (.error e) user hu
    hcheck]
  cases Order.save stored
      { userId := req.userId, orderId := orderId, date := req.date, time := req.time,
        address := req.address, email := user.email, name := user.name,
        productIds := req.productsOrdered.map (fun item => item.productId),
        trackingId := trackingId, price := req.price } with
  | error e' => rfl
  | ok stored' => rfl

theorem placeOrder_save_rejected_witness :
    ((placeOrder complaintAsOrder [sampleUser] [samplePen] [] (sampleOrder sampleUser.id [])
        "654321" "Q7W8E9" (.ok ())).1.status = 500 ∧
      (placeOrder complaintAsOrder [sampleUser] [samplePen] [] (sampleOrder sampleUser.id [])
        "654321" "Q7W8E9" (.ok ())).2 = []) ∧
      ((placeOrder complaintAsOrder [sampleUser] [samplePen] [] (sampleOrder sampleUser.id [])
        "654321" "Q7W8E9" (.error "connect ECONNREFUSED")).1.status = 500 ∧
      (placeOrder complaintAsOrder [sampleUser] [samplePen] [] (sampleOrder sampleUser.id [])
        "654321" "Q7W8E9" (.error "connect ECONNREFUSED")).2 = []) :=
  have h := placeOrder_save_rejected [sampleUser] [samplePen] [] (sampleOrder sampleUser.id [])
    "654321" "Q7W8E9" sampleUser (by decide) rfl
  ⟨⟨(h (.ok ())).1, (h (.ok ())).2.2.2.2.1⟩,
    ⟨(h (.error "connect ECONNREFUSED")).1, (h (.error "connect ECONNREFUSED")).2.2.2.2.1⟩⟩

/-- C7 as stated fails: a request whose `userId` matches no stored user is answered 500, which
is not a 4xx status. -/
theorem placeOrder_unknown_user_status :
    User.findById [sampleUser] "ffffffffffffffffffffffff" = .missing ∧
      (placeOrder complaintAsOrder [sampleUser] [samplePen] []
        (sampleOrder "ffffffffffffffffffffffff" [⟨"p1", some 1⟩]) "123456" "K3J9X2"
        (.ok ())).1.status = 500 ∧
      ¬ (400 ≤ (placeOrder complaintAsOrder [sampleUser] [samplePen] []
          (sampleOrder "ffffffffffffffffffffffff" [⟨"p1", some 1⟩]) "123456" "K3J9X2"
          (.ok ())).1.status ∧
        (placeOrder complaintAsOrder [sampleUser] [samplePen] []
          (sampleOrder "ffffffffffffffffffffffff" [⟨"p1", some 1⟩]) "123456" "K3J9X2"
          (.ok ())).1.status ≤ 499) := by
  decide

/-- C7, amended.  For every placeOrder request whose userId matches no stored user, placeOrder
answers with status 500 and message 'Error placing order', the response of its generic catch
block, and persists no order.  The error text is 'User not found' when the userId is an ObjectId
that no user has; when the userId is not an ObjectId the lookup itself throws. -/
theorem placeOrder_unknown_user {D : Type} (Order : OrderModel D) (users : List User)
    (products : List Product) (orders : List D) (req : PlaceOrderRequest)
    (orderId trackingId : String) (mail : Except String Unit)
    (hu : ∀ user, User.findById users req.userId ≠ .found user) :
    (placeOrder Order users products orders req orderId trackingId mail).1.status = 500 ∧
      (placeOrder Order users products orders req orderId trackingId mail).1.message =
        "Error placing order" ∧
      (placeOrder Order users products orders req orderId trackingId mail).2 = orders ∧
      (User.findById users req.userId = .missing →
        (placeOrder Order users products orders req orderId trackingId mail).1.error =
          some "User not found") := by
  unfold placeOrder
  cases hf : User.findById users req.userId with
  | castError e => exact ⟨rfl, rfl, rfl, fun h => by cases h⟩
  | missing => exact ⟨rfl, rfl, rfl, fun _ => rfl⟩
  | found user => exact absurd hf (hu user)

theorem placeOrder_unknown_user_witness :
    ((placeOrder complaintAsOrder [sampleUser] [samplePen] []
        (sampleOrder "a1b2c3d4e5f60718" [⟨"p1", some 2⟩]) "123456" "K3J9X2" (.ok ())).1.status
        = 500 ∧
      (placeOrder complaintAsOrder [sampleUser] [samplePen] []
        (sampleOrder "a1b2c3d4e5f60718" [⟨"p1", some 2⟩]) "123456" "K3J9X2" (.ok ())).2 = []) ∧
      (placeOrder complaintAsOrder [sampleUser] [samplePen] []
        (sampleOrder "65a1f0c2e4b0a1b2c3d4e5f7" [⟨"p1", some 2⟩]) "123456" "K3J9X2"
        (.ok ())).1.error = some "User not found" :=
  have h1 := placeOrder_unknown_user complaintAsOrder [sampleUser] [samplePen] []
    (sampleOrder "a1b2c3d4e5f60718" [⟨"p1", some 2⟩]) "123456" "K3J9X2" (.ok ())
    (fun user h => by
      have hc : User.findById [sampleUser] "a1b2c3d4e5f60718" =
          .castError (castErrorMessage "a1b2c3d4e5f60718" "_id" "User") := by decide
      rw [show (sampleOrder "a1b2c3d4e5f60718" [⟨"p1", some 2⟩]).userId = "a1b2c3d4e5f60718"
        from rfl, hc] at h
      cases h)
  have h2 := placeOrder_unknown_user complaintAsOrder [sampleUser] [samplePen] []
    (sampleOrder "65a1f0c2e4b0a1b2c3d4e5f7" [⟨"p1", some 2⟩]) "123456" "K3J9X2" (.ok ())
    (fun user h => by
      have hc : User.findById [sampleUser] "65a1f0c2e4b0a1b2c3d4e5f7" = .missing := by decide
      rw [show (sampleOrder "65a1f0c2e4b0a1b2c3d4e5f7" [⟨"p1", some 2⟩]).userId =
        "65a1f0c2e4b0a1b2c3d4e5f7" from rfl, hc] at h
      cases h)
  ⟨⟨h1.1, h1.2.2.1⟩, h2.2.2.2 (by decide)⟩

/-! ### Coupons -/

theorem eraseP_congr_mem {α : Type} (p q : α → Bool) (l : List α)
    (h : ∀ x ∈ l, p x = q x) : l.eraseP p = l.eraseP q := by
  induction l with
  | nil => rfl
  | cons a t ih =>
    have ha := h a (List.mem_cons_self _ _)
    have ht := ih (fun x hx => h x (List.mem_cons_of_mem _ hx))
    simp [List.eraseP_cons, ha, ht]

theorem code_unique (coupons : List Coupon) (huniq : (coupons.map Coupon.code).Nodup)
    (x k : Coupon) (hx : x ∈ coupons) (hk : k ∈ coupons) (hcode : x.code = k.code) : x = k :=
  List.inj_on_of_nodup_map huniq hx hk hcode

/-- C10.  For a stored coupon `k` (the collection satisfying the schema's validators on `k` and
the unique index on `code`): a delete request with `k`'s code and a non-zero percentage different
from `k`'s is answered 404 and leaves the collection unchanged; a delete request with `k`'s code
and `k`'s percentage is answered 200 and removes `k` and no other coupon. -/
theorem deleteCoupon_spec (coupons : List Coupon) (k : Coupon) (hk : k ∈ coupons)
    (hvalid : k.validate = true) (huniq : (coupons.map Coupon.code).Nodup) :
    (∀ d, d ≠ k.discountPercentage → d ≠ 0 →
        deleteCoupon coupons (some k.code) (some d) =
          (⟨404, false, "Coupon not found"⟩, coupons)) ∧
      deleteCoupon coupons (some k.code) (some k.discountPercentage) =
        (⟨200, true, "Coupon deleted successfully"⟩, coupons.erase k) ∧
      ∀ x, x ∈ (deleteCoupon coupons (some k.code) (some k.discountPercentage)).2 ↔
        x ∈ coupons ∧ x ≠ k := by
  have hnodup : coupons.Nodup := List.Nodup.of_map _ huniq
  have hcode : k.code ≠ "" := by
    intro h
    simp [Coupon.validate, h] at hvalid
  have hd : k.discountPercentage ≠ 0 := by
    intro h
    simp [Coupon.validate, h] at hvalid
  have hdel : deleteCoupon coupons (some k.code) (some k.discountPercentage) =
      (⟨200, true, "Coupon deleted successfully"⟩, coupons.erase k) := by
    have hfind : (coupons.find? (couponMatches k.code k.discountPercentage)).isSome = true := by
      rw [List.find?_isSome]
      exact ⟨k, hk, by simp [couponMatches]⟩
    have herase : coupons.eraseP (couponMatches k.code k.discountPercentage) = coupons.erase k := by
      rw [List.erase_eq_eraseP]
      apply eraseP_congr_mem
      intro x hx
      by_cases hxk : x = k
      · subst hxk; simp [couponMatches]
      · have hne : x.code ≠ k.code := fun h => hxk (code_unique coupons huniq x k hx hk h)
        have e1 : (x.code == k.code) = false := by simpa using hne
        have e2 : (k == x) = false := by simpa using fun h : k = x => hxk h.symm
        simp [couponMatches, e1, e2]
    unfold deleteCoupon
    cases hf : coupons.find? (couponMatches k.code k.discountPercentage) with
    | none => simp [hf] at hfind
    | some found => simp [falsyString, falsyNumber, hcode, hd, herase, hf]
  refine ⟨?_, hdel, ?_⟩
  · intro d hne hd0
    have hfind : coupons.find? (couponMatches k.code d) = none := by
      rw [List.find?_eq_none]
      intro x hx hm
      simp only [couponMatches, Bool.and_eq_true, beq_iff_eq] at hm
      have := code_unique coupons huniq x k hx hk hm.1
      subst this
      exact hne hm.2.symm
    unfold deleteCoupon
    simp [falsyString, falsyNumber, hcode, hd0, hfind]
  · intro x
    rw [hdel]
    show x ∈ coupons.erase k ↔ x ∈ coupons ∧ x ≠ k
    rw [hnodup.mem_erase_iff]
    exact and_comm

theorem deleteCoupon_spec_witness :
    deleteCoupon sampleCoupons (some "SAVE10") (some 20) =
        (⟨404, false, "Coupon not found"⟩, sampleCoupons) ∧
      deleteCoupon sampleCoupons (some "SAVE10") (some 10) =
        (⟨200, true, "Coupon deleted successfully"⟩,
          [{ code := "WELCOME", discountPercentage := 20, expirationDate := some 1767225600000,
             usageLimit := 5, isActive := true }]) :=
  have h := deleteCoupon_spec sampleCoupons
    { code := "SAVE10", discountPercentage := 10, expirationDate := some 1767225600000,
      usageLimit := 1, isActive := true } (by decide) (by decide) (by decide)
  ⟨h.1 20 (by decide) (by decide), h.2.1⟩

/-- C11.  `verifyCoupon` checks existence only.  For every non-empty code `c` the response is
200 exactly when some stored coupon has code `c`, and it then carries the discount of the coupon
found, whatever its `isActive`, `expirationDate` and `usageLimit`; in particular (codes being
unique) a coupon that is inactive, expired, without expiration date or without remaining uses
is rejected by the model's `validateCoupon` and still has its discount returned. -/
theorem verifyCoupon_existence_only (coupons : List Coupon) (c : String) (hc : c ≠ "") :
    ((verifyCoupon coupons (some c)).status = 200 ↔ ∃ k ∈ coupons, k.code = c) ∧
      (∀ k, coupons.find? (fun x => x.code == c) = some k →
        verifyCoupon coupons (some c) = ⟨200, true, none, some k.discountPercentage⟩) ∧
      (∀ (now : Int) (k : Coupon), k ∈ coupons → k.code = c →
        (coupons.map Coupon.code).Nodup →
        (k.isActive = false ∨ k.expirationDate = none ∨
          (∃ t, k.expirationDate = some t ∧ t < now) ∨ k.usageLimit ≤ 0) →
        Coupon.validateCoupon coupons now c = none ∧
          verifyCoupon coupons (some c) = ⟨200, true, none, some k.discountPercentage⟩) := by
  have hc' : (c == "") = false := by simpa using hc
  have hfound : ∀ k, coupons.find? (fun x => x.code == c) = some k →
      verifyCoupon coupons (some c) = ⟨200, true, none, some k.discountPercentage⟩ := by
    intro k hk
    simp [verifyCoupon, hc', hk]
  refine ⟨?_, hfound, ?_⟩
  · cases hf : coupons.find? (fun x => x.code == c) with
    | none =>
      have hnone := hf
      rw [List.find?_eq_none] at hnone
      constructor
      · intro h
        simp [verifyCoupon, hc', hf] at h
      · rintro ⟨k, hk, hkc⟩
        exact absurd (by simpa using hkc) (hnone k hk)
    | some k =>
      constructor
      · intro _
        exact ⟨k, List.mem_of_find?_eq_some hf, by simpa using List.find?_some hf⟩
      · intro _
        rw [hfound k hf]
  · intro now k hk hkc huniq hbad
    have hfind : coupons.find? (fun x => x.code == c) = some k := by
      cases hf : coupons.find? (fun x => x.code == c) with
      | none =>
        rw [List.find?_eq_none] at hf
        exact absurd (by simpa using hkc) (hf k hk)
      | some k' =>
        have hk' := List.mem_of_find?_eq_some hf
        have hcode : k'.code = c := by simpa using List.find?_some hf
        rw [code_unique coupons huniq k' k hk' hk (hcode.trans hkc.symm)]
    refine ⟨?_, hfound k hfind⟩
    unfold Coupon.validateCoupon
    rw [List.find?_eq_none]
    intro x hx hmatch
    simp only [Bool.and_eq_true, beq_iff_eq, decide_eq_true_eq] at hmatch
    obtain ⟨⟨⟨hxc, hact⟩, hexp⟩, huse⟩ := hmatch
    have hxk : x = k := code_unique coupons huniq x k hx hk (hxc.trans hkc.symm)
    subst hxk
    rcases hbad with h | h | ⟨t, ht, hlt⟩ | h
    · rw [h] at hact; exact Bool.false_ne_true hact
    · rw [h] at hexp; exact Bool.false_ne_true hexp
    · rw [ht] at hexp
      simp only [decide_eq_true_eq] at hexp
      omega
    · omega

theorem verifyCoupon_existence_only_witness :
    verifyCoupon [⟨"OLD30", 30, some 1700000000000, 0, false⟩] (some "OLD30") =
        ⟨200, true, none, some 30⟩ ∧
      Coupon.validateCoupon [⟨"OLD30", 30, some 1700000000000, 0, false⟩] 1767225600000 "OLD30" =
        none :=
  have h := (verifyCoupon_existence_only [⟨"OLD30", 30, some 1700000000000, 0, false⟩] "OLD30"
    (by decide)).2.2 1767225600000 ⟨"OLD30", 30, some 1700000000000, 0, false⟩
    (by decide) rfl (by decide) (Or.inl rfl)
  ⟨h.2, h.1⟩

/-- C12.  `saveCoupon` persists nothing: for every non-empty code used by no stored coupon and
every discountPercentage in [1,100] the document built by the route has no `expirationDate`,
which the coupon model requires, so validation rejects the save, the response is 500 'Error
saving coupon' and the collection is unchanged. -/
theorem saveCoupon_rejected (coupons : List Coupon) (c : String) (d : Int) (hc : c ≠ "")
    (hd1 : 1 ≤ d) (hd2 : d ≤ 100) (_hfree : ∀ k ∈ coupons, k.code ≠ c) :
    Coupon.validate
        { code := c, discountPercentage := d, expirationDate := none, usageLimit := 1,
          isActive := true } = false ∧
      saveCoupon coupons (some c) (some d) =
        (⟨500, false, "Error saving coupon", some "Coupon validation failed", none⟩, coupons) := by
  have hv : Coupon.validate
      { code := c, discountPercentage := d, expirationDate := none, usageLimit := 1,
        isActive := true } = false := by
    simp [Coupon.validate]
  have hd : d ≠ 0 := by omega
  refine ⟨hv, ?_⟩
  simp [saveCoupon, falsyString, falsyNumber, hc, hd, Coupon.saveNew, hv]

theorem saveCoupon_rejected_witness :
    Coupon.validate
        { code := "SPRING15", discountPercentage := 15, expirationDate := none, usageLimit := 1,
          isActive := true } = false ∧
      saveCoupon sampleCoupons (some "SPRING15") (some 15) =
        (⟨500, false, "Error saving coupon", some "Coupon validation failed", none⟩,
          sampleCoupons) :=
  saveCoupon_rejected sampleCoupons "SPRING15" 15 (by decide) (by decide) (by decide) (by decide)

/-! ### Cart: removal, quantity update, quantity invariant -/

theorem castObjectId_empty : castObjectId "" = none := by decide

theorem findOne_found (carts : List Cart) (u : String) (cart : Cart)
    (h : Cart.findOne carts u = .found cart) :
    ∃ k, castObjectId u = some k ∧ cart.userId = k ∧
      carts.find? (fun c => c.userId == k) = some cart := by
  unfold Cart.findOne at h
  cases hk : castObjectId u with
  | none => simp [hk] at h
  | some k =>
    simp only [hk] at h
    cases hf : carts.find? (fun c => c.userId == k) with
    | none => simp [hf] at h
    | some c =>
      simp only [hf, Lookup.found.injEq] at h
      subst h
      exact ⟨k, rfl, by simpa using List.find?_some hf, hf⟩

theorem findOne_not_empty (carts : List Cart) (u : String)
    (h : ∀ e, Cart.findOne carts u ≠ .castError e) : (u == "") = false := by
  rw [beq_eq_false_iff_ne]
  intro hu
  subst hu
  exact h (castErrorMessage "" "userId" "Cart") (by simp [Cart.findOne, castObjectId_empty])

theorem find?_replaceFirst {α : Type} (p : α → Bool) (new x : α) (l : List α)
    (h : l.find? p = some x) (hnew : p new = true) :
    (replaceFirst p new l).find? p = some new := by
  induction l with
  | nil => simp at h
  | cons a t ih =>
    by_cases ha : p a = true
    · simp [replaceFirst, ha, hnew]
    · have ha' : p a = false := by simpa using ha
      rw [List.find?_cons, ha'] at h
      simp only [replaceFirst, ha', Bool.false_eq_true, if_false, List.find?_cons]
      exact ih h

theorem findOne_replaceFirst (carts : List Cart) (u : String) (cart new : Cart)
    (h : Cart.findOne carts u = .found cart) (hnew : new.userId = cart.userId) :
    Cart.findOne (replaceFirst (fun c => c.userId == cart.userId) new carts) u = .found new := by
  obtain ⟨k, hk, hid, hfind⟩ := findOne_found carts u cart h
  subst hid
  unfold Cart.findOne
  simp only [hk]
  rw [find?_replaceFirst (fun c => c.userId == cart.userId) new cart carts hfind
    (by simp [hnew])]

theorem saveExisting_of_valid (carts : List Cart) (cart : Cart) (items : List LineItem)
    (hcart : cart.validate = true) (hv : items.all LineItem.valid = true) :
    Cart.saveExisting carts { cart with productsInCart := items } =
      some (replaceFirst (fun c => c.userId == cart.userId)
        { cart with productsInCart := items } carts) := by
  have hid : (castObjectId cart.userId).isSome = true := by
    simp only [Cart.validate, Bool.and_eq_true] at hcart
    exact hcart.1
  simp [Cart.saveExisting, Cart.validate, hv, hid]

theorem validate_all (cart : Cart) (h : cart.validate = true) :
    cart.productsInCart.all LineItem.valid = true := by
  simp only [Cart.validate, Bool.and_eq_true] at h
  exact h.2

theorem find?_item_isSome (items : List LineItem) (p : String)
    (h : ∃ item ∈ items, item.productId = p) :
    ∃ found, items.find? (fun item => item.productId == p) = some found := by
  obtain ⟨item, hmem, hid⟩ := h
  cases hf : items.find? (fun item => item.productId == p) with
  | none =>
    rw [List.find?_eq_none] at hf
    exact absurd (by simpa using hid) (hf item hmem)
  | some found => exact ⟨found, rfl⟩

theorem find?_item_none (items : List LineItem) (p : String)
    (h : ∀ item ∈ items, item.productId ≠ p) :
    items.find? (fun item => item.productId == p) = none := by
  rw [List.find?_eq_none]
  intro x hx
  simpa using h x hx

/-- C13 as stated fails: for the userId 'u1', which no cart has, the response is 500 and not
404, because the lookup of the cart throws on a value that is not an ObjectId. -/
theorem removeItem_malformed_user :
    (∀ c ∈ sampleCarts, c.userId ≠ "u1") ∧
      (removeItem sampleCarts "u1" "64b7c1d2e3f4a5b6c7d8e9f1").1 =
        ⟨500, "An error occurred while deleting the item."⟩ ∧
      (removeItem sampleCarts "u1" "64b7c1d2e3f4a5b6c7d8e9f1").2 = sampleCarts := by
  refine ⟨by decide, by decide, rfl⟩

/-- C13, amended.  `removeItem(userId, productId)` for a userId that is an ObjectId and a
productId that is present.  If the user's cart (a stored document, so satisfying the schema) has
a line item for productId, the cart afterwards is the old cart with its line-item list filtered
to the items of other products (kept in order, with their quantities) and the response is 200;
if the cart is missing or has no line item for productId, the response is 404 and the collection
is unchanged. -/
theorem removeItem_spec (carts : List Cart) (u p k : String) (hu : castObjectId u = some k)
    (hp : p ≠ "") :
    (∀ cart, Cart.findOne carts u = .found cart → cart.validate = true →
        (∃ item ∈ cart.productsInCart, item.productId = p) →
        cart.userId = k ∧
        removeItem carts u p =
          (⟨200, "Item deleted successfully."⟩,
            replaceFirst (fun c => c.userId == k)
              { cart with productsInCart :=
                  cart.productsInCart.filter (fun item => item.productId != p) } carts) ∧
        Cart.findOne (removeItem carts u p).2 u =
          .found { cart with productsInCart :=
                  cart.productsInCart.filter (fun item => item.productId != p) }) ∧
      ((∀ c ∈ carts, c.userId ≠ k) → removeItem carts u p = (⟨404, "Cart not found."⟩, carts)) ∧
      (∀ cart, Cart.findOne carts u = .found cart →
        (∀ item ∈ cart.productsInCart, item.productId ≠ p) →
        removeItem carts u p = (⟨404, "Product not found in the cart."⟩, carts)) := by
  have hu' : (u == "") = false :=
    findOne_not_empty [] u (fun e h => by simp [Cart.findOne, hu] at h)
  have hp' : (p == "") = false := by simpa using hp
  refine ⟨?_, ?_, ?_⟩
  · intro cart hcart hvalid hitem
    obtain ⟨k', hk', hid, _⟩ := findOne_found carts u cart hcart
    have hkk : k' = k := by rw [hu] at hk'; exact (Option.some.inj hk').symm
    subst hkk
    obtain ⟨found, hfound⟩ := find?_item_isSome cart.productsInCart p hitem
    have hv : (cart.productsInCart.filter (fun item => item.productId != p)).all LineItem.valid
        = true := by
      rw [List.all_eq_true]
      intro x hx
      have hx' := (List.mem_filter.mp hx).1
      exact (List.all_eq_true.mp (validate_all cart hvalid)) x hx'
    have hsave := saveExisting_of_valid carts cart _ hvalid hv
    have hres : removeItem carts u p =
        (⟨200, "Item deleted successfully."⟩,
          replaceFirst (fun c => c.userId == cart.userId)
            { cart with productsInCart :=
                cart.productsInCart.filter (fun item => item.productId != p) } carts) := by
      simp only [removeItem, hu', hp', hcart, hfound, hsave, Bool.or_self, Bool.false_eq_true,
        if_false]
    refine ⟨hid, by rw [← hid]; exact hres, ?_⟩
    rw [hres]
    exact findOne_replaceFirst carts u cart _ hcart rfl
  · intro hnone
    have hfind : carts.find? (fun c => c.userId == k) = none := by
      rw [List.find?_eq_none]
      intro c hc
      simpa using hnone c hc
    simp [removeItem, hu', hp', Cart.findOne, hu, hfind]
  · intro cart hcart hno
    have hfind := find?_item_none cart.productsInCart p hno
    simp [removeItem, hu', hp', hcart, hfind]

theorem removeItem_spec_witness :
    removeItem sampleCarts "65A1F0C2E4B0A1B2C3D4E5F6" "64b7c1d2e3f4a5b6c7d8e9f1" =
        (⟨200, "Item deleted successfully."⟩,
          [{ userId := "65a1f0c2e4b0a1b2c3d4e5f6",
             productsInCart := [⟨"64b7c1d2e3f4a5b6c7d8e9f2", some 1⟩] },
           { userId := "65a1f0c2e4b0a1b2c3d4e5f7",
             productsInCart := [⟨"64b7c1d2e3f4a5b6c7d8e9f1", some 3⟩] }]) ∧
      removeItem sampleCarts "65a1f0c2e4b0a1b2c3d4e5f8" "64b7c1d2e3f4a5b6c7d8e9f1" =
        (⟨404, "Cart not found."⟩, sampleCarts) ∧
      removeItem sampleCarts "65a1f0c2e4b0a1b2c3d4e5f6" "64b7c1d2e3f4a5b6c7d8e9f3" =
        (⟨404, "Product not found in the cart."⟩, sampleCarts) :=
  ⟨((removeItem_spec sampleCarts "65A1F0C2E4B0A1B2C3D4E5F6" "64b7c1d2e3f4a5b6c7d8e9f1"
      "65a1f0c2e4b0a1b2c3d4e5f6" (by decide) (by decide)).1
      ⟨"65a1f0c2e4b0a1b2c3d4e5f6",
        [⟨"64b7c1d2e3f4a5b6c7d8e9f1", some 2⟩, ⟨"64b7c1d2e3f4a5b6c7d8e9f2", some 1⟩]⟩
      rfl (by simp [Cart.validate, LineItem.valid]; decide)
      ⟨⟨"64b7c1d2e3f4a5b6c7d8e9f1", some 2⟩, by simp, rfl⟩).2.1,
    (removeItem_spec sampleCarts "65a1f0c2e4b0a1b2c3d4e5f8" "64b7c1d2e3f4a5b6c7d8e9f1"
      "65a1f0c2e4b0a1b2c3d4e5f8" (by decide) (by decide)).2.1 (by decide),
    (removeItem_spec sampleCarts "65a1f0c2e4b0a1b2c3d4e5f6" "64b7c1d2e3f4a5b6c7d8e9f3"
      "65a1f0c2e4b0a1b2c3d4e5f6" (by decide) (by decide)).2.2
      ⟨"65a1f0c2e4b0a1b2c3d4e5f6",
        [⟨"64b7c1d2e3f4a5b6c7d8e9f1", some 2⟩, ⟨"64b7c1d2e3f4a5b6c7d8e9f2", some 1⟩]⟩
      rfl (by simp)⟩

theorem setQty_split (p : String) (n : ℚ) (items : List LineItem)
    (h : ∃ item ∈ items, item.productId = p) :
    ∃ pre item post, items = pre ++ item :: post ∧ (∀ x ∈ pre, x.productId ≠ p) ∧
      item.productId = p ∧ setQty p n items = pre ++ ⟨p, some n⟩ :: post := by
  induction items with
  | nil =>
    obtain ⟨item, hmem, _⟩ := h
    exact absurd hmem (List.not_mem_nil _)
  | cons x xs ih =>
    by_cases hx : x.productId = p
    · refine ⟨[], x, xs, rfl, fun _ hm => absurd hm (List.not_mem_nil _), hx, ?_⟩
      simp [setQty, hx]
    · have hrest : ∃ item ∈ xs, item.productId = p := by
        obtain ⟨item, hmem, hid⟩ := h
        rcases List.mem_cons.mp hmem with heq | hmem'
        · exact absurd (heq ▸ hid) hx
        · exact ⟨item, hmem', hid⟩
      obtain ⟨pre, item, post, hsplit, hpre, hid, hset⟩ := ih hrest
      refine ⟨x :: pre, item, post, by rw [hsplit]; rfl, ?_, hid, ?_⟩
      · intro y hy
        rcases List.mem_cons.mp hy with heq | hy'
        · exact heq ▸ hx
        · exact hpre y hy'
      · have hx' : (x.productId == p) = false := by simpa using hx
        simp [setQty, hx', hset]

theorem updateQuantity_accepts (carts : List Cart) (u p : String) (n : ℚ) (cart : Cart)
    (hp : p ≠ "") (hn : 0 < n) (hcart : Cart.findOne carts u = .found cart)
    (hitem : ∃ item ∈ cart.productsInCart, item.productId = p) :
    updateQuantity carts u p (some n) =
      match Cart.saveExisting carts
          { cart with productsInCart := setQty p n cart.productsInCart } with
      | some carts' => (⟨200, "Quantity updated successfully."⟩, carts')
      | none => (⟨500, "An error occurred while updating the quantity."⟩, carts) := by
  have hu' : (u == "") = false :=
    findOne_not_empty carts u (fun e h => by rw [hcart] at h; cases h)
  have hp' : (p == "") = false := by simpa using hp
  have hn' : ¬ n ≤ 0 := not_le.mpr hn
  obtain ⟨found, hfound⟩ := find?_item_isSome cart.productsInCart p hitem
  simp only [updateQuantity, hu', hp', hn', hcart, hfound, decide_False, Bool.or_self,
    Bool.false_eq_true, if_false]

theorem setQty_valid (p : String) (n : ℚ) (items : List LineItem) (hn : 1 ≤ n)
    (hv : items.all LineItem.valid = true) :
    (setQty p n items).all LineItem.valid = true := by
  induction items with
  | nil => rfl
  | cons x xs ih =>
    simp only [List.all_cons, Bool.and_eq_true] at hv
    by_cases hx : (x.productId == p) = true
    · have hid : (castObjectId x.productId).isSome = true := by
        have := hv.1
        simp only [LineItem.valid, Bool.and_eq_true] at this
        exact this.1
      simp [setQty, hx, LineItem.valid, hn, hv.2, hid]
    · simp [setQty, hx, hv.1, ih hv.2]

theorem setQty_invalid (p : String) (n : ℚ) (items : List LineItem) (hn : n < 1)
    (h : ∃ item ∈ items, item.productId = p) :
    (setQty p n items).all LineItem.valid = false := by
  obtain ⟨pre, item, post, _, _, _, hset⟩ := setQty_split p n items h
  rw [hset, Bool.eq_false_iff]
  intro hall
  have hmem : (⟨p, some n⟩ : LineItem) ∈ pre ++ ⟨p, some n⟩ :: post := by simp
  have := (List.all_eq_true.mp hall) _ hmem
  simp only [LineItem.valid, Bool.and_eq_true, decide_eq_true_eq] at this
  exact absurd hn (not_lt.mpr this.2)

/-- C14 as stated fails.  For the positive number 1/2 and a cart that holds a line item for the
product, the quantity is not replaced by 1/2: the save is rejected by the validator `min: 1`,
the response is 500 and the cart keeps the quantity 2.  For the userId 'u1', which no cart has,
the response is 500 and not 404, because the lookup of the cart throws on a value that is not an
ObjectId. -/
theorem updateQuantity_fraction_rejected :
    (0 : ℚ) < 1 / 2 ∧
      updateQuantity sampleCarts "65a1f0c2e4b0a1b2c3d4e5f6" "64b7c1d2e3f4a5b6c7d8e9f1"
          (some (1 / 2)) =
        (⟨500, "An error occurred while updating the quantity."⟩, sampleCarts) ∧
      (∀ c ∈ sampleCarts, c.userId ≠ "u1") ∧
      updateQuantity sampleCarts "u1" "64b7c1d2e3f4a5b6c7d8e9f1" (some 2) =
        (⟨500, "An error occurred while updating the quantity."⟩, sampleCarts) := by
  refine ⟨by norm_num, ?_, by decide, ?_⟩
  · rw [updateQuantity_accepts sampleCarts "65a1f0c2e4b0a1b2c3d4e5f6"
      "64b7c1d2e3f4a5b6c7d8e9f1" (1 / 2)
      ⟨"65a1f0c2e4b0a1b2c3d4e5f6",
        [⟨"64b7c1d2e3f4a5b6c7d8e9f1", some 2⟩, ⟨"64b7c1d2e3f4a5b6c7d8e9f2", some 1⟩]⟩
      (by decide) (by norm_num) rfl ⟨⟨"64b7c1d2e3f4a5b6c7d8e9f1", some 2⟩, by simp, rfl⟩]
    have hv := setQty_invalid "64b7c1d2e3f4a5b6c7d8e9f1" (1 / 2)
      [⟨"64b7c1d2e3f4a5b6c7d8e9f1", some 2⟩, ⟨"64b7c1d2e3f4a5b6c7d8e9f2", some 1⟩]
      (by norm_num) ⟨⟨"64b7c1d2e3f4a5b6c7d8e9f1", some 2⟩, by simp, rfl⟩
    simp only [Cart.saveExisting, Cart.validate, hv, Bool.and_false, Bool.false_eq_true,
      if_false]
  · have hq : ¬ (2 : ℚ) ≤ 0 := by norm_num
    have hc : Cart.findOne sampleCarts "u1" =
        .castError (castErrorMessage "u1" "userId" "Cart") := rfl
    have h1 : ("u1" == "") = false := by decide
    have h2 : ("64b7c1d2e3f4a5b6c7d8e9f1" == "") = false := by decide
    simp only [updateQuantity, h1, h2, hq, hc, decide_False, Bool.or_self, Bool.false_eq_true,
      if_false]

/-- C14, amended.  `updateQuantity(userId, productId, n)` for a userId that is an ObjectId and a
productId that is present.  If n ≥ 1 and the user's cart (a stored document, so satisfying the
schema) has a line item for productId, the response is 200 and afterwards the first such line
item has quantity exactly n (replaced, not added), every other line item is unchanged and the
number of line items is unchanged.  If 0 < n < 1 and the cart has such a line item, the
validator `min: 1` rejects the save: the response is 500 and nothing changes.  If n > 0 and the
cart or the line item is absent, the response is 404 and nothing changes; if n ≤ 0 or n is not a
number, the response is 400 and nothing changes. -/
theorem updateQuantity_spec (carts : List Cart) (u p k : String) (hu : castObjectId u = some k)
    (hp : p ≠ "") :
    (∀ (n : ℚ) (cart : Cart), 1 ≤ n → Cart.findOne carts u = .found cart →
        cart.validate = true → (∃ item ∈ cart.productsInCart, item.productId = p) →
        cart.userId = k ∧
        updateQuantity carts u p (some n) =
          (⟨200, "Quantity updated successfully."⟩,
            replaceFirst (fun c => c.userId == k)
              { cart with productsInCart := setQty p n cart.productsInCart } carts) ∧
        Cart.findOne (updateQuantity carts u p (some n)).2 u =
          .found { cart with productsInCart := setQty p n cart.productsInCart } ∧
        (setQty p n cart.productsInCart).length = cart.productsInCart.length ∧
        ∃ pre item post, cart.productsInCart = pre ++ item :: post ∧
          (∀ x ∈ pre, x.productId ≠ p) ∧ item.productId = p ∧
          setQty p n cart.productsInCart = pre ++ ⟨p, some n⟩ :: post) ∧
      (∀ (n : ℚ) (cart : Cart), 0 < n → n < 1 → Cart.findOne carts u = .found cart →
        (∃ item ∈ cart.productsInCart, item.productId = p) →
        updateQuantity carts u p (some n) =
          (⟨500, "An error occurred while updating the quantity."⟩, carts)) ∧
      (∀ n : ℚ, 0 < n → (∀ c ∈ carts, c.userId ≠ k) →
        updateQuantity carts u p (some n) = (⟨404, "Cart not found."⟩, carts)) ∧
      (∀ (n : ℚ) (cart : Cart), 0 < n → Cart.findOne carts u = .found cart →
        (∀ item ∈ cart.productsInCart, item.productId ≠ p) →
        updateQuantity carts u p (some n) = (⟨404, "Product not found in the cart."⟩, carts)) ∧
      (∀ n : ℚ, n ≤ 0 →
        updateQuantity carts u p (some n) =
          (⟨400, "Valid userId, productId, and productQty are required."⟩, carts)) ∧
      updateQuantity carts u p none =
        (⟨400, "Valid userId, productId, and productQty are required."⟩, carts) := by
  have hu' : (u == "") = false :=
    findOne_not_empty [] u (fun e h => by simp [Cart.findOne, hu] at h)
  have hp' : (p == "") = false := by simpa using hp
  refine ⟨?_, ?_, ?_, ?_, ?_, rfl⟩
  · intro n cart hn hcart hvalid hitem
    obtain ⟨k', hk', hid, _⟩ := findOne_found carts u cart hcart
    have hkk : k' = k := by rw [hu] at hk'; exact (Option.some.inj hk').symm
    subst hkk
    have hpos : (0 : ℚ) < n := lt_of_lt_of_le one_pos hn
    have hv := setQty_valid p n cart.productsInCart hn (validate_all cart hvalid)
    have hsave := saveExisting_of_valid carts cart _ hvalid hv
    have hres : updateQuantity carts u p (some n) =
        (⟨200, "Quantity updated successfully."⟩,
          replaceFirst (fun c => c.userId == cart.userId)
            { cart with productsInCart := setQty p n cart.productsInCart } carts) := by
      rw [updateQuantity_accepts carts u p n cart hp hpos hcart hitem, hsave]
    obtain ⟨pre, item, post, hsplit, hpre, hid', hset⟩ :=
      setQty_split p n cart.productsInCart hitem
    refine ⟨hid, by rw [← hid]; exact hres, ?_, ?_, pre, item, post, hsplit, hpre, hid', hset⟩
    · rw [hres]
      exact findOne_replaceFirst carts u cart _ hcart rfl
    · rw [hset, hsplit]
      simp
  · intro n cart hpos hlt hcart hitem
    have hv := setQty_invalid p n cart.productsInCart hlt hitem
    rw [updateQuantity_accepts carts u p n cart hp hpos hcart hitem]
    simp [Cart.saveExisting, Cart.validate, hv]
  · intro n hpos hnone
    have hn' : ¬ n ≤ 0 := not_le.mpr hpos
    have hfind : carts.find? (fun c => c.userId == k) = none := by
      rw [List.find?_eq_none]
      intro c hc
      simpa using hnone c hc
    simp [updateQuantity, hu', hp', hn', Cart.findOne, hu, hfind]
  · intro n cart hpos hcart hno
    have hn' : ¬ n ≤ 0 := not_le.mpr hpos
    have hfind := find?_item_none cart.productsInCart p hno
    simp [updateQuantity, hu', hp', hn', hcart, hfind]
  · intro n hn
    simp [updateQuantity, hn]

theorem updateQuantity_spec_witness :
    updateQuantity sampleCarts "65a1f0c2e4b0a1b2c3d4e5f6" "64b7c1d2e3f4a5b6c7d8e9f2" (some 4) =
        (⟨200, "Quantity updated successfully."⟩,
          [{ userId := "65a1f0c2e4b0a1b2c3d4e5f6",
             productsInCart :=
               [⟨"64b7c1d2e3f4a5b6c7d8e9f1", some 2⟩, ⟨"64b7c1d2e3f4a5b6c7d8e9f2", some 4⟩] },
           { userId := "65a1f0c2e4b0a1b2c3d4e5f7",
             productsInCart := [⟨"64b7c1d2e3f4a5b6c7d8e9f1", some 3⟩] }]) ∧
      updateQuantity sampleCarts "65a1f0c2e4b0a1b2c3d4e5f6" "64b7c1d2e3f4a5b6c7d8e9f2"
          (some (3 / 4)) =
        (⟨500, "An error occurred while updating the quantity."⟩, sampleCarts) ∧
      updateQuantity sampleCarts "65a1f0c2e4b0a1b2c3d4e5f8" "64b7c1d2e3f4a5b6c7d8e9f2"
          (some 4) =
        (⟨404, "Cart not found."⟩, sampleCarts) ∧
      updateQuantity sampleCarts "65a1f0c2e4b0a1b2c3d4e5f6" "64b7c1d2e3f4a5b6c7d8e9f2"
          (some (-1)) =
        (⟨400, "Valid userId, productId, and productQty are required."⟩, sampleCarts) :=
  have h := updateQuantity_spec sampleCarts "65a1f0c2e4b0a1b2c3d4e5f6"
    "64b7c1d2e3f4a5b6c7d8e9f2" "65a1f0c2e4b0a1b2c3d4e5f6" (by decide) (by decide)
  have h8 := updateQuantity_spec sampleCarts "65a1f0c2e4b0a1b2c3d4e5f8"
    "64b7c1d2e3f4a5b6c7d8e9f2" "65a1f0c2e4b0a1b2c3d4e5f8" (by decide) (by decide)
  ⟨(h.1 4 ⟨"65a1f0c2e4b0a1b2c3d4e5f6",
        [⟨"64b7c1d2e3f4a5b6c7d8e9f1", some 2⟩, ⟨"64b7c1d2e3f4a5b6c7d8e9f2", some 1⟩]⟩
      (by norm_num) rfl (by simp [Cart.validate, LineItem.valid]; decide)
      ⟨⟨"64b7c1d2e3f4a5b6c7d8e9f2", some 1⟩, by simp, rfl⟩).2.1,
    h.2.1 (3 / 4) ⟨"65a1f0c2e4b0a1b2c3d4e5f6",
        [⟨"64b7c1d2e3f4a5b6c7d8e9f1", some 2⟩, ⟨"64b7c1d2e3f4a5b6c7d8e9f2", some 1⟩]⟩
      (by norm_num) (by norm_num) rfl ⟨⟨"64b7c1d2e3f4a5b6c7d8e9f2", some 1⟩, by simp, rfl⟩,
    h8.2.2.1 4 (by norm_num) (by decide),
    h.2.2.2.2.1 (-1) (by norm_num)⟩

theorem mem_replaceFirst {α : Type} (p : α → Bool) (new x : α) (l : List α)
    (h : x ∈ replaceFirst p new l) : x = new ∨ x ∈ l := by
  induction l with
  | nil => simp [replaceFirst] at h
  | cons a t ih =>
    unfold replaceFirst at h
    split at h
    · rcases List.mem_cons.mp h with h1 | h1
      · exact Or.inl h1
      · exact Or.inr (List.mem_cons_of_mem _ h1)
    · rcases List.mem_cons.mp h with h1 | h1
      · exact Or.inr (h1 ▸ List.mem_cons_self _ _)
      · rcases ih h1 with h2 | h2
        · exact Or.inl h2
        · exact Or.inr (List.mem_cons_of_mem _ h2)

theorem saveExisting_valid (carts carts' : List Cart) (c : Cart)
    (hsave : Cart.saveExisting carts c = some carts')
    (h : ∀ x ∈ carts, x.validate = true) : ∀ x ∈ carts', x.validate = true := by
  unfold Cart.saveExisting at hsave
  split at hsave
  · rename_i hv
    cases hsave
    intro x hx
    rcases mem_replaceFirst _ _ _ _ hx with h1 | h1
    · exact h1 ▸ hv
    · exact h x h1
  · cases hsave

theorem saveNew_valid (carts carts' : List Cart) (c : Cart)
    (hsave : Cart.saveNew carts c = some carts')
    (h : ∀ x ∈ carts, x.validate = true) : ∀ x ∈ carts', x.validate = true := by
  unfold Cart.saveNew at hsave
  split at hsave
  · rename_i hv
    cases hsave
    intro x hx
    rcases List.mem_append.mp hx with h1 | h1
    · exact h x h1
    · rw [List.mem_singleton.mp h1]; exact hv
  · cases hsave

theorem addToCart_valid (carts : List Cart) (u p : String) (q : Option Int)
    (h : ∀ x ∈ carts, x.validate = true) : ∀ x ∈ (addToCart carts u p q).2, x.validate = true := by
  unfold addToCart
  split
  · exact h
  · dsimp only
    split
    · exact h
    · split
      · rename_i hsave
        exact saveExisting_valid _ _ _ hsave h
      · exact h
    · split
      · rename_i hsave
        exact saveNew_valid _ _ _ hsave h
      · exact h

theorem updateQuantity_valid (carts : List Cart) (u p : String) (q : Option ℚ)
    (h : ∀ x ∈ carts, x.validate = true) :
    ∀ x ∈ (updateQuantity carts u p q).2, x.validate = true := by
  unfold updateQuantity
  split
  · exact h
  · split
    · exact h
    · split
      · exact h
      · exact h
      · split
        · exact h
        · split
          · rename_i hsave
            exact saveExisting_valid _ _ _ hsave h
          · exact h

theorem removeItem_valid (carts : List Cart) (u p : String)
    (h : ∀ x ∈ carts, x.validate = true) : ∀ x ∈ (removeItem carts u p).2, x.validate = true := by
  unfold removeItem
  split
  · exact h
  · split
    · exact h
    · exact h
    · split
      · exact h
      · split
        · rename_i hsave
          exact saveExisting_valid _ _ _ hsave h
        · exact h

theorem cartStep_valid (carts : List Cart) (req : CartRequest)
    (h : ∀ x ∈ carts, x.validate = true) : ∀ x ∈ cartStep carts req, x.validate = true := by
  cases req with
  | addToCart u p q => exact addToCart_valid carts u p q h
  | updateQuantity u p q => exact updateQuantity_valid carts u p q h
  | removeItem u p => exact removeItem_valid carts u p h

theorem cartRun_valid (requests : List CartRequest) :
    ∀ carts : List Cart, (∀ x ∈ carts, x.validate = true) →
      ∀ x ∈ cartRun carts requests, x.validate = true := by
  induction requests with
  | nil => intro carts h; exact h
  | cons req rest ih =>
    intro carts h
    exact ih (cartStep carts req) (cartStep_valid carts req h)

theorem validate_items (c : Cart) (h : c.validate = true) :
    ∀ item ∈ c.productsInCart, ∃ q, item.productQty = some q ∧ 1 ≤ q := by
  intro item hitem
  have hv := (List.all_eq_true.mp (validate_all c h)) item hitem
  simp only [LineItem.valid, Bool.and_eq_true] at hv
  cases hq : item.productQty with
  | none => rw [hq] at hv; exact absurd hv.2 Bool.false_ne_true
  | some q => rw [hq] at hv; exact ⟨q, rfl, by simpa using hv.2⟩

/-- C15.  Cart quantity invariant.  Starting from a store with no carts, and more generally from
any store whose carts satisfy the schema, after any sequence of addToCart, updateQuantity and
removeItem requests with arbitrary arguments every line item of every persisted cart has a
quantity, and it is at least 1; an addToCart or updateQuantity request with a quantity ≤ 0 is
answered 400 and changes nothing. -/
theorem cart_quantity_invariant :
    (∀ requests : List CartRequest, ∀ c ∈ cartRun [] requests, ∀ item ∈ c.productsInCart,
        ∃ q, item.productQty = some q ∧ 1 ≤ q) ∧
      (∀ (carts : List Cart) (requests : List CartRequest),
        (∀ c ∈ carts, c.validate = true) →
        ∀ c ∈ cartRun carts requests, ∀ item ∈ c.productsInCart,
          ∃ q, item.productQty = some q ∧ 1 ≤ q) ∧
      (∀ (carts : List Cart) (u p : String) (q : Int), q ≤ 0 →
        addToCart carts u p (some q) =
          (⟨400, "Quantity must be a positive number.", none⟩, carts)) ∧
      (∀ (carts : List Cart) (u p : String) (n : ℚ), n ≤ 0 →
        updateQuantity carts u p (some n) =
          (⟨400, "Valid userId, productId, and productQty are required."⟩, carts)) := by
  refine ⟨?_, ?_, ?_, ?_⟩
  · intro requests c hc
    exact validate_items c
      (cartRun_valid requests [] (fun x hx => absurd hx (List.not_mem_nil _)) c hc)
  · intro carts requests h c hc
    exact validate_items c (cartRun_valid requests carts h c hc)
  · intro carts u p q hq
    simp [addToCart, jsLeZero, hq]
  · intro carts u p n hn
    simp [updateQuantity, hn]

theorem cart_quantity_invariant_witness :
    (∀ c ∈ cartRun sampleCarts
        [.addToCart "65a1f0c2e4b0a1b2c3d4e5f6" "64b7c1d2e3f4a5b6c7d8e9f3" (some 2),
          .updateQuantity "65a1f0c2e4b0a1b2c3d4e5f6" "64b7c1d2e3f4a5b6c7d8e9f1" (some (1 / 2)),
          .removeItem "65a1f0c2e4b0a1b2c3d4e5f7" "64b7c1d2e3f4a5b6c7d8e9f1"],
        ∀ item ∈ c.productsInCart, ∃ q, item.productQty = some q ∧ 1 ≤ q) ∧
      addToCart sampleCarts "65a1f0c2e4b0a1b2c3d4e5f6" "64b7c1d2e3f4a5b6c7d8e9f1" (some 0) =
        (⟨400, "Quantity must be a positive number.", none⟩, sampleCarts) :=
  ⟨cart_quantity_invariant.2.1 sampleCarts _
      (by simp [sampleCarts, Cart.validate, LineItem.valid]; decide),
    cart_quantity_invariant.2.2.1 sampleCarts "65a1f0c2e4b0a1b2c3d4e5f6"
      "64b7c1d2e3f4a5b6c7d8e9f1" 0 (by decide)⟩

/-! ### Decimal rendering of the generated numbers -/

theorem digitChar_isDigit : ∀ d, d < 10 → (Nat.digitChar d).isDigit = true := by decide

theorem digitChar_ne_zero : ∀ d, d < 10 → 1 ≤ d → Nat.digitChar d ≠ '0' := by decide

theorem toDigits_five (n : ℕ) (h1 : 10000 ≤ n) (h2 : n < 100000) :
    Nat.toDigits 10 n =
      [Nat.digitChar (n / 10000), Nat.digitChar (n / 1000 % 10), Nat.digitChar (n / 100 % 10),
        Nat.digitChar (n / 10 % 10), Nat.digitChar (n % 10)] := by
  obtain ⟨m, hm⟩ : ∃ m, n + 1 = m + 5 := ⟨n - 4, by omega⟩
  have e1 : n / 10 ≠ 0 := by omega
  have e2 : n / 10 / 10 ≠ 0 := by omega
  have e3 : n / 10 / 10 / 10 ≠ 0 := by omega
  have e4 : n / 10 / 10 / 10 / 10 ≠ 0 := by omega
  have e5 : n / 10 / 10 / 10 / 10 / 10 = 0 := by omega
  have d4 : n / 10 / 10 / 10 / 10 % 10 = n / 10000 := by omega
  have d3 : n / 10 / 10 / 10 % 10 = n / 1000 % 10 := by omega
  have d2 : n / 10 / 10 % 10 = n / 100 % 10 := by omega
  unfold Nat.toDigits
  rw [hm]
  simp only [Nat.toDigitsCore, e1, e2, e3, e4, e5, if_false, if_true, d4, d3, d2]

theorem toDigits_six (n : ℕ) (h1 : 100000 ≤ n) (h2 : n < 1000000) :
    Nat.toDigits 10 n =
      [Nat.digitChar (n / 100000), Nat.digitChar (n / 10000 % 10), Nat.digitChar (n / 1000 % 10),
        Nat.digitChar (n / 100 % 10), Nat.digitChar (n / 10 % 10), Nat.digitChar (n % 10)] := by
  obtain ⟨m, hm⟩ : ∃ m, n + 1 = m + 6 := ⟨n - 5, by omega⟩
  have e1 : n / 10 ≠ 0 := by omega
  have e2 : n / 10 / 10 ≠ 0 := by omega
  have e3 : n / 10 / 10 / 10 ≠ 0 := by omega
  have e4 : n / 10 / 10 / 10 / 10 ≠ 0 := by omega
  have e5 : n / 10 / 10 / 10 / 10 / 10 ≠ 0 := by omega
  have e6 : n / 10 / 10 / 10 / 10 / 10 / 10 = 0 := by omega
  have d5 : n / 10 / 10 / 10 / 10 / 10 % 10 = n / 100000 := by omega
  have d4 : n / 10 / 10 / 10 / 10 % 10 = n / 10000 % 10 := by omega
  have d3 : n / 10 / 10 / 10 % 10 = n / 1000 % 10 := by omega
  have d2 : n / 10 / 10 % 10 = n / 100 % 10 := by omega
  unfold Nat.toDigits
  rw [hm]
  simp only [Nat.toDigitsCore, e1, e2, e3, e4, e5, e6, if_false, if_true, d5, d4, d3, d2]

theorem sixDigitDraw_range (r : ℚ) (h0 : 0 ≤ r) (h1 : r < 1) :
    100000 ≤ sixDigitDraw r ∧ sixDigitDraw r ≤ 999999 := by
  unfold sixDigitDraw
  constructor
  · apply Int.le_floor.mpr
    push_cast
    nlinarith
  · have : ⌊100000 + r * 900000⌋ < 1000000 := by
      apply Int.floor_lt.mpr
      push_cast
      nlinarith
    omega

theorem sixDigitId_digits (r : ℚ) (h0 : 0 ≤ r) (h1 : r < 1) :
    ∃ n : ℕ, 100000 ≤ n ∧ n ≤ 999999 ∧ sixDigitDraw r = (n : ℤ) ∧
      sixDigitId r =
        ⟨[Nat.digitChar (n / 100000), Nat.digitChar (n / 10000 % 10),
          Nat.digitChar (n / 1000 % 10), Nat.digitChar (n / 100 % 10),
          Nat.digitChar (n / 10 % 10), Nat.digitChar (n % 10)]⟩ := by
  obtain ⟨hlo, hhi⟩ := sixDigitDraw_range r h0 h1
  obtain ⟨n, hn⟩ : ∃ n : ℕ, sixDigitDraw r = (n : ℤ) := ⟨(sixDigitDraw r).toNat, by omega⟩
  refine ⟨n, by omega, by omega, hn, ?_⟩
  unfold sixDigitId
  rw [hn]
  show (⟨Nat.toDigits 10 n⟩ : String) = _
  rw [toDigits_six n (by omega) (by omega)]

theorem sixDigitId_ne_empty (r : ℚ) (h0 : 0 ≤ r) (h1 : r < 1) : sixDigitId r ≠ "" := by
  obtain ⟨n, _, _, _, hid⟩ := sixDigitId_digits r h0 h1
  rw [hid]
  intro h
  have := congrArg String.length h
  simp [String.length] at this

/-! ### Complaints -/

/-- The complaint that `fileComplaint` hands to `save()` is stored when its email has the
schema's shape and its number is not in use. -/
theorem fileComplaint_saved (complaints : List Complaint) (name email message userType : String)
    (r : ℚ) (mail : Except String Unit)
    (hname : name ≠ "") (hemail : email ≠ "") (hmessage : message ≠ "")
    (htype : userType ≠ "") (hnum : sixDigitId r ≠ "")
    (hmatch : complaintEmailMatch email = true)
    (hfree : ∀ c ∈ complaints, c.complaintNumber ≠ sixDigitId r) :
    fileComplaint complaints (some name) (some email) (some message) (some userType) r mail =
      match mail with
      | .error e =>
        (⟨500, false, "Error registering complaint", some e, none⟩,
          complaints ++ [⟨sixDigitId r, name, email, message, userType, "Pending"⟩])
      | .ok _ =>
        (⟨201, true, "Complaint registered successfully", none,
            some ⟨sixDigitId r, name, email, message, userType, "Pending"⟩⟩,
          complaints ++ [⟨sixDigitId r, name, email, message, userType, "Pending"⟩]) := by
  have hany : complaints.any (fun x => x.complaintNumber == sixDigitId r) = false := by
    rw [Bool.eq_false_iff]
    intro h
    obtain ⟨c, hc, heq⟩ := List.any_eq_true.mp h
    exact hfree c hc (by simpa using heq)
  have hsave : Complaint.saveNew complaints
      { complaintNumber := some (sixDigitId r), name := some name, email := some email,
        message := some message, userType := some userType, status := none } =
      .ok (complaints ++ [⟨sixDigitId r, name, email, message, userType, "Pending"⟩]) := by
    simp [Complaint.saveNew, Complaint.validate, requiredString, hname, hemail, hmessage, htype,
      hnum, hmatch, hany]
  have hfalsy : (falsyString (some name) || falsyString (some email) ||
      falsyString (some message) || falsyString (some userType)) = false := by
    simp [falsyString, hname, hemail, hmessage, htype]
  unfold fileComplaint
  simp only [hfalsy, Bool.false_eq_true, if_false, hsave]
  cases mail <;> simp

/-- C16 as stated fails: when the acknowledgement email cannot be sent the response is 500, but
the ticket of the failed request remains stored. -/
theorem fileComplaint_mail_failure_keeps_ticket :
    fileComplaint [] (some "Ann") (some "ann@shop.io") (some "Parcel arrived late")
        (some "customer") 0 (.error "connect ECONNREFUSED") =
      (⟨500, false, "Error registering complaint", some "connect ECONNREFUSED", none⟩,
        [⟨"100000", "Ann", "ann@shop.io", "Parcel arrived late", "customer", "Pending"⟩]) := by
  have hid : sixDigitId 0 = "100000" := by
    simp [sixDigitId, sixDigitDraw]
    rfl
  have h := fileComplaint_saved [] "Ann" "ann@shop.io" "Parcel arrived late" "customer" 0
    (.error "connect ECONNREFUSED") (by decide) (by decide) (by decide) (by decide)
    (by rw [hid]; decide) (by decide) (fun c hc => absurd hc (List.not_mem_nil _))
  rw [hid] at h
  exact h

/-- C16, amended.  If the acknowledgement email fails to send, fileComplaint returns the
500 error to the caller, and the complaint saved before the dispatch stays stored: the collection
after the request is the collection before it with the new ticket appended. -/
theorem fileComplaint_mail_failure (complaints : List Complaint)
    (name email message userType : String) (r : ℚ) (e : String)
    (hname : name ≠ "") (hemail : email ≠ "") (hmessage : message ≠ "")
    (htype : userType ≠ "") (h0 : 0 ≤ r) (h1 : r < 1)
    (hmatch : complaintEmailMatch email = true)
    (hfree : ∀ c ∈ complaints, c.complaintNumber ≠ sixDigitId r) :
    fileComplaint complaints (some name) (some email) (some message) (some userType) r
        (.error e) =
      (⟨500, false, "Error registering complaint", some e, none⟩,
        complaints ++ [⟨sixDigitId r, name, email, message, userType, "Pending"⟩]) := by
  rw [fileComplaint_saved complaints name email message userType r (.error e) hname hemail
    hmessage htype (sixDigitId_ne_empty r h0 h1) hmatch hfree]

theorem fileComplaint_mail_failure_witness :
    fileComplaint [⟨"100000", "Ann", "ann@shop.io", "Parcel arrived late", "customer", "Pending"⟩]
        (some "Bob") (some "bob@shop.io") (some "Wrong colour") (some "customer") (1 / 2)
        (.error "timeout") =
      (⟨500, false, "Error registering complaint", some "timeout", none⟩,
        [⟨"100000", "Ann", "ann@shop.io", "Parcel arrived late", "customer", "Pending"⟩] ++
          [⟨sixDigitId (1 / 2), "Bob", "bob@shop.io", "Wrong colour", "customer", "Pending"⟩]) :=
  fileComplaint_mail_failure
    [⟨"100000", "Ann", "ann@shop.io", "Parcel arrived late", "customer", "Pending"⟩]
    "Bob" "bob@shop.io" "Wrong colour" "customer" (1 / 2) "timeout"
    (by decide) (by decide) (by decide) (by decide) (by norm_num) (by norm_num) (by decide)
    (by
      have hid : sixDigitId (1 / 2) = "550000" := by
        simp [sixDigitId, sixDigitDraw]
        norm_num
        rfl
      intro c hc
      rw [hid]
      have : c = ⟨"100000", "Ann", "ann@shop.io", "Parcel arrived late", "customer", "Pending"⟩ := by
        simpa using hc
      subst this
      decide)

theorem requiredString_some (s : String) (t : String) (h : requiredString (some s) = some t) :
    t = s := by
  by_cases hs : s = ""
  · simp [requiredString, hs] at h
  · simp [requiredString, hs] at h
    exact h.symm

theorem saveNew_ok (complaints l : List Complaint) (number name email message userType : String)
    (h : Complaint.saveNew complaints
      { complaintNumber := some number, name := some name, email := some email,
        message := some message, userType := some userType, status := none } = .ok l) :
    l = complaints ++ [⟨number, name, email, message, userType, "Pending"⟩] := by
  unfold Complaint.saveNew at h
  split at h
  · cases h
  · rename_i c hval
    have hc : c = ⟨number, name, email, message, userType, "Pending"⟩ := by
      unfold Complaint.validate at hval
      split at hval
      · rename_i k n e m u h1 h2 h3 h4 h5
        dsimp only at hval h1 h2 h3 h4 h5
        split at hval
        · cases hval
          rw [requiredString_some _ _ h1, requiredString_some _ _ h2,
            requiredString_some _ _ h3, requiredString_some _ _ h4,
            requiredString_some _ _ h5]
          rfl
        · cases hval
      · cases hval
    split at h
    · cases h
    · cases h
      rw [hc]

/-- C17.  `fileComplaint(name, email, message, userType)`.  If any of the four fields is absent
or empty the response is 400 and nothing is persisted.  Otherwise the request persists at most
one document, and the complaint it persists carries exactly the given name, email, message and
userType, the generated complaintNumber and status 'Pending'; it does persist it whenever the
email has the shape required by the schema and the generated number is not in use. -/
theorem fileComplaint_spec (complaints : List Complaint) (r : ℚ) (mail : Except String Unit) :
    (∀ name email message userType : Option String,
        (falsyString name = true ∨ falsyString email = true ∨ falsyString message = true ∨
          falsyString userType = true) →
        fileComplaint complaints name email message userType r mail =
          (⟨400, false, "All fields (name, email, message, userType) are required.", none, none⟩,
            complaints)) ∧
      (∀ name email message userType : String,
        name ≠ "" → email ≠ "" → message ≠ "" → userType ≠ "" →
        ((fileComplaint complaints (some name) (some email) (some message) (some userType)
              r mail).2 = complaints ∨
          (fileComplaint complaints (some name) (some email) (some message) (some userType)
              r mail).2 =
            complaints ++ [⟨sixDigitId r, name, email, message, userType, "Pending"⟩]) ∧
        (0 ≤ r → r < 1 → complaintEmailMatch email = true →
          (∀ c ∈ complaints, c.complaintNumber ≠ sixDigitId r) →
          (fileComplaint complaints (some name) (some email) (some message) (some userType)
              r mail).2 =
            complaints ++ [⟨sixDigitId r, name, email, message, userType, "Pending"⟩])) := by
  constructor
  · intro name email message userType h
    have hfalsy : (falsyString name || falsyString email || falsyString message ||
        falsyString userType) = true := by
      rcases h with h | h | h | h <;> simp [h]
    unfold fileComplaint
    rw [if_pos hfalsy]
  · intro name email message userType hname hemail hmessage htype
    constructor
    · have hfalsy : (falsyString (some name) || falsyString (some email) ||
          falsyString (some message) || falsyString (some userType)) = false := by
        simp [falsyString, hname, hemail, hmessage, htype]
      unfold fileComplaint
      simp only [hfalsy, Bool.false_eq_true, if_false]
      cases hsave : Complaint.saveNew complaints
          { complaintNumber := some (sixDigitId r), name := some name, email := some email,
            message := some message, userType := some userType, status := none } with
      | error e => exact Or.inl rfl
      | ok l =>
        have hl := saveNew_ok complaints l _ _ _ _ _ hsave
        right
        cases mail <;> exact hl
    · intro h0 h1 hmatch hfree
      rw [fileComplaint_saved complaints name email message userType r mail hname hemail
        hmessage htype (sixDigitId_ne_empty r h0 h1) hmatch hfree]
      cases mail <;> rfl

theorem fileComplaint_spec_witness :
    fileComplaint [] (some "Ann") (some "") (some "Parcel arrived late") (some "customer") 0
        (.ok ()) =
        (⟨400, false, "All fields (name, email, message, userType) are required.", none, none⟩,
          []) ∧
      (fileComplaint [] (some "Ann") (some "ann@shop.io") (some "Parcel arrived late")
        (some "customer") 0 (.ok ())).2 =
        [] ++ [⟨sixDigitId 0, "Ann", "ann@shop.io", "Parcel arrived late", "customer", "Pending"⟩] :=
  have h := fileComplaint_spec [] 0 (.ok ())
  ⟨h.1 (some "Ann") (some "") (some "Parcel arrived late") (some "customer")
      (Or.inr (Or.inl rfl)),
    (h.2 "Ann" "ann@shop.io" "Parcel arrived late" "customer" (by decide) (by decide)
      (by decide) (by decide)).2 (by norm_num) (by norm_num) (by decide)
      (fun c hc => absurd hc (List.not_mem_nil _))⟩

theorem setStatus_split (id st : String) (complaints : List Complaint) (c : Complaint)
    (h : complaints.find? (fun x => x.complaintNumber == id) = some c) :
    ∃ pre post, complaints = pre ++ c :: post ∧ (∀ x ∈ pre, x.complaintNumber ≠ id) ∧
      setStatus id st complaints = pre ++ { c with status := st } :: post := by
  induction complaints with
  | nil => simp at h
  | cons x xs ih =>
    by_cases hx : x.complaintNumber = id
    · have hx' : (x.complaintNumber == id) = true := by simpa using hx
      rw [List.find?_cons, hx'] at h
      cases h
      exact ⟨[], xs, rfl, fun _ hm => absurd hm (List.not_mem_nil _), by simp [setStatus, hx]⟩
    · have hx' : (x.complaintNumber == id) = false := by simpa using hx
      rw [List.find?_cons, hx'] at h
      obtain ⟨pre, post, hsplit, hpre, hset⟩ := ih h
      refine ⟨x :: pre, post, by rw [hsplit]; rfl, ?_, ?_⟩
      · intro y hy
        rcases List.mem_cons.mp hy with heq | hy'
        · exact heq ▸ hx
        · exact hpre y hy'
      · simp [setStatus, hx', hset]

/-- C18.  `updateStatus(complaintId, status)` for non-empty arguments.  If no complaint has
complaintNumber = complaintId the response is 404 and the collection is unchanged.  Otherwise the
status of the first complaint with that number is set to the given string as it is, for every
string (no check against Pending, In Progress, Resolved), no other field and no other complaint
changes, and the response is 200 with the updated complaint. -/
theorem updateComplaintStatus_spec (complaints : List Complaint) (id st : String)
    (hid : id ≠ "") (hst : st ≠ "") :
    (complaints.find? (fun x => x.complaintNumber == id) = none →
        updateComplaintStatus complaints (some id) (some st) =
          (⟨404, false, "Complaint not found", none, none⟩, complaints)) ∧
      (∀ c, complaints.find? (fun x => x.complaintNumber == id) = some c →
        updateComplaintStatus complaints (some id) (some st) =
          (⟨200, true, "Complaint status updated successfully", none,
              some { c with status := st }⟩, setStatus id st complaints) ∧
        ∃ pre post, complaints = pre ++ c :: post ∧ (∀ x ∈ pre, x.complaintNumber ≠ id) ∧
          setStatus id st complaints = pre ++ { c with status := st } :: post) := by
  have hfalsy : (falsyString (some id) || falsyString (some st)) = false := by
    simp [falsyString, hid, hst]
  constructor
  · intro hnone
    unfold updateComplaintStatus
    simp only [hfalsy, Bool.false_eq_true, if_false, hnone]
  · intro c hc
    refine ⟨?_, setStatus_split id st complaints c hc⟩
    unfold updateComplaintStatus
    simp only [hfalsy, Bool.false_eq_true, if_false, hc]

theorem updateComplaintStatus_spec_witness :
    updateComplaintStatus
        [⟨"100000", "Ann", "ann@shop.io", "Parcel arrived late", "customer", "Pending"⟩,
          ⟨"550000", "Bob", "bob@shop.io", "Wrong colour", "customer", "Pending"⟩]
        (some "550000") (some "Escalated") =
        (⟨200, true, "Complaint status updated successfully", none,
            some ⟨"550000", "Bob", "bob@shop.io", "Wrong colour", "customer", "Escalated"⟩⟩,
          [⟨"100000", "Ann", "ann@shop.io", "Parcel arrived late", "customer", "Pending"⟩,
            ⟨"550000", "Bob", "bob@shop.io", "Wrong colour", "customer", "Escalated"⟩]) ∧
      updateComplaintStatus
        [⟨"100000", "Ann", "ann@shop.io", "Parcel arrived late", "customer", "Pending"⟩]
        (some "999999") (some "Resolved") =
        (⟨404, false, "Complaint not found", none, none⟩,
          [⟨"100000", "Ann", "ann@shop.io", "Parcel arrived late", "customer", "Pending"⟩]) :=
  ⟨((updateComplaintStatus_spec
      [⟨"100000", "Ann", "ann@shop.io", "Parcel arrived late", "customer", "Pending"⟩,
        ⟨"550000", "Bob", "bob@shop.io", "Wrong colour", "customer", "Pending"⟩]
      "550000" "Escalated" (by decide) (by decide)).2
      ⟨"550000", "Bob", "bob@shop.io", "Wrong colour", "customer", "Pending"⟩ (by decide)).1,
    (updateComplaintStatus_spec
      [⟨"100000", "Ann", "ann@shop.io", "Parcel arrived late", "customer", "Pending"⟩]
      "999999" "Resolved" (by decide) (by decide)).1 (by decide)⟩

/-! ### Generated identifiers -/

theorem sellerNumber_range (r : ℚ) (h0 : 0 ≤ r) (h1 : r < 1) :
    10000 ≤ sellerNumber r ∧ sellerNumber r ≤ 99999 := by
  unfold sellerNumber
  constructor
  · apply Int.le_floor.mpr
    push_cast
    nlinarith
  · have : ⌊10000 + r * 90000⌋ < 100000 := by
      apply Int.floor_lt.mpr
      push_cast
      nlinarith
    omega

theorem sellerNumber_digits (r : ℚ) (h0 : 0 ≤ r) (h1 : r < 1) :
    ∃ n : ℕ, 10000 ≤ n ∧ n ≤ 99999 ∧ toString (sellerNumber r) = toString n ∧
      (toString n).length = 5 ∧ (toString n).data.all Char.isDigit = true := by
  obtain ⟨hlo, hhi⟩ := sellerNumber_range r h0 h1
  obtain ⟨n, hn⟩ : ∃ n : ℕ, sellerNumber r = (n : ℤ) := ⟨(sellerNumber r).toNat, by omega⟩
  have hrepr : toString n =
      ⟨[Nat.digitChar (n / 10000), Nat.digitChar (n / 1000 % 10), Nat.digitChar (n / 100 % 10),
        Nat.digitChar (n / 10 % 10), Nat.digitChar (n % 10)]⟩ := by
    show (⟨Nat.toDigits 10 n⟩ : String) = _
    rw [toDigits_five n (by omega) (by omega)]
  refine ⟨n, by omega, by omega, by rw [hn]; rfl, ?_, ?_⟩
  · rw [hrepr]; rfl
  · rw [hrepr]
    simp only [List.all_cons, List.all_nil, Bool.and_true, Bool.and_eq_true]
    exact ⟨digitChar_isDigit _ (by omega), digitChar_isDigit _ (by omega),
      digitChar_isDigit _ (by omega), digitChar_isDigit _ (by omega),
      digitChar_isDigit _ (by omega)⟩

/-- C19.  Seller id generation, for every collection of sellers and every sequence of draws of
`Math.random()` in [0,1).  Whenever the loop stops, the identifier it returns is 'MBSLR'
followed by the decimal rendering of a number in 10000..99999, which has exactly five decimal
digits, and no existing seller has that sellerId.  The loop does stop on every sequence that
holds a draw whose identifier is not in use. -/
theorem generateUniqueSellerId_spec (sellers : List Seller) (draws : List ℚ)
    (hdraws : ∀ r ∈ draws, 0 ≤ r ∧ r < 1) :
    (∀ id, generateUniqueSellerId sellers draws = some id →
        (∃ n : ℕ, 10000 ≤ n ∧ n ≤ 99999 ∧ id = "MBSLR" ++ toString n ∧
          (toString n).length = 5 ∧ (toString n).data.all Char.isDigit = true) ∧
        ∀ s ∈ sellers, s.sellerId ≠ id) ∧
      ((∃ r ∈ draws, ∀ s ∈ sellers, s.sellerId ≠ "MBSLR" ++ toString (sellerNumber r)) →
        (generateUniqueSellerId sellers draws).isSome = true) := by
  induction draws with
  | nil =>
    constructor
    · intro id h
      simp [generateUniqueSellerId] at h
    · rintro ⟨r, hr, _⟩
      exact absurd hr (List.not_mem_nil _)
  | cons r rest ih =>
    have hrest : ∀ x ∈ rest, 0 ≤ x ∧ x < 1 := fun x hx => hdraws x (List.mem_cons_of_mem _ hx)
    obtain ⟨ih1, ih2⟩ := ih hrest
    obtain ⟨hr0, hr1⟩ := hdraws r (List.mem_cons_self _ _)
    cases hf : sellers.find? (fun s => s.sellerId == "MBSLR" ++ toString (sellerNumber r)) with
    | none =>
      have hgen : generateUniqueSellerId sellers (r :: rest) =
          some ("MBSLR" ++ toString (sellerNumber r)) := by
        simp only [generateUniqueSellerId, hf]
      constructor
      · intro id hid
        rw [hgen] at hid
        cases hid
        obtain ⟨n, hlo, hhi, hstr, hlen, hdig⟩ := sellerNumber_digits r hr0 hr1
        refine ⟨⟨n, hlo, hhi, by rw [hstr], hlen, hdig⟩, ?_⟩
        rw [List.find?_eq_none] at hf
        intro s hs
        simpa using hf s hs
      · intro _
        rw [hgen]
        rfl
    | some found =>
      have hgen : generateUniqueSellerId sellers (r :: rest) =
          generateUniqueSellerId sellers rest := by
        simp only [generateUniqueSellerId, hf]
      rw [hgen]
      refine ⟨ih1, ?_⟩
      rintro ⟨x, hx, hfree⟩
      rcases List.mem_cons.mp hx with heq | hx'
      · subst heq
        have hmem := List.mem_of_find?_eq_some hf
        have hid : found.sellerId = "MBSLR" ++ toString (sellerNumber x) := by
          simpa using List.find?_some hf
        exact absurd hid (hfree found hmem)
      · exact ih2 ⟨x, hx', hfree⟩

theorem generateUniqueSellerId_spec_witness :
    (generateUniqueSellerId [sampleSeller] [1 / 2, 1 / 4]).isSome = true ∧
      ∀ id, generateUniqueSellerId [sampleSeller] [1 / 2, 1 / 4] = some id →
        (∃ n : ℕ, 10000 ≤ n ∧ n ≤ 99999 ∧ id = "MBSLR" ++ toString n ∧
          (toString n).length = 5 ∧ (toString n).data.all Char.isDigit = true) ∧
        ∀ s ∈ [sampleSeller], s.sellerId ≠ id :=
  have h := generateUniqueSellerId_spec [sampleSeller] [1 / 2, 1 / 4] (by
    intro r hr
    simp only [List.mem_cons, List.mem_singleton, List.not_mem_nil, or_false] at hr
    rcases hr with h | h <;> subst h <;> norm_num)
  ⟨h.2 ⟨1 / 4, by simp, by
      have hnum : toString (sellerNumber (1 / 4)) = "32500" := by
        simp [sellerNumber]
        norm_num
        rfl
      intro s hs
      rw [hnum, List.mem_singleton.mp hs]
      decide⟩,
    h.1⟩

/-- C20.  For every draw r with 0 ≤ r < 1, taken as an exact rational,
`Math.floor(100000 + r * 900000)` is an integer in 100000..999999 and its `toString()`, the
orderId of placeOrder and the complaintNumber of fileComplaint, is a string of exactly six
decimal digits whose first digit is not zero; the complaint returned by fileComplaint carries
that string as its complaintNumber. -/
theorem sixDigitId_spec (r : ℚ) (h0 : 0 ≤ r) (h1 : r < 1) :
    100000 ≤ sixDigitDraw r ∧ sixDigitDraw r ≤ 999999 ∧
      (sixDigitId r).length = 6 ∧ (sixDigitId r).data.all Char.isDigit = true ∧
      (sixDigitId r).data.head? ≠ some '0' ∧
      ∀ (complaints : List Complaint) (name email message userType : String)
        (mail : Except String Unit) (c : Complaint),
        (fileComplaint complaints (some name) (some email) (some message) (some userType)
          r mail).1.complaint = some c → c.complaintNumber = sixDigitId r := by
  obtain ⟨hlo, hhi⟩ := sixDigitDraw_range r h0 h1
  obtain ⟨n, hn1, hn2, _, hid⟩ := sixDigitId_digits r h0 h1
  refine ⟨hlo, hhi, ?_, ?_, ?_, ?_⟩
  · rw [hid]; rfl
  · rw [hid]
    simp only [List.all_cons, List.all_nil, Bool.and_true, Bool.and_eq_true]
    exact ⟨digitChar_isDigit _ (by omega), digitChar_isDigit _ (by omega),
      digitChar_isDigit _ (by omega), digitChar_isDigit _ (by omega),
      digitChar_isDigit _ (by omega), digitChar_isDigit _ (by omega)⟩
  · rw [hid]
    simp only [List.head?_cons, ne_eq, Option.some.injEq]
    exact digitChar_ne_zero _ (by omega) (by omega)
  · intro complaints name email message userType mail c hc
    unfold fileComplaint at hc
    split at hc
    · cases hc
    · dsimp only at hc
      split at hc
      · cases hc
      · rename_i l hsave
        have hl := saveNew_ok complaints l _ _ _ _ _ hsave
        split at hc
        · cases hc
        · simp only [hl, List.getLast?_append, List.getLast?_singleton] at hc
          simp at hc
          rw [← hc]

theorem sixDigitId_spec_witness :
    100000 ≤ sixDigitDraw (1 / 3) ∧ sixDigitDraw (1 / 3) ≤ 999999 ∧
      (sixDigitId (1 / 3)).length = 6 ∧ (sixDigitId (1 / 3)).data.all Char.isDigit = true ∧
      (sixDigitId (1 / 3)).data.head? ≠ some '0' :=
  have h := sixDigitId_spec (1 / 3) (by norm_num) (by norm_num)
  ⟨h.1, h.2.1, h.2.2.1, h.2.2.2.1, h.2.2.2.2.1⟩

/-! ### Product stock -/

theorem roundDouble_exact (n : Int) (h1 : -(2 ^ 53) ≤ n) (h2 : n ≤ 2 ^ 53) :
    roundDouble n = n := by
  have h : n.natAbs ≤ 2 ^ 53 := by omega
  unfold roundDouble
  simp only [h, if_true]

theorem roundDouble_above : roundDouble 9007199254740993 = 9007199254740992 := by
  have hl : Nat.log2 9007199254740993 = 53 := by
    rw [Nat.log2_eq_log_two]
    exact Nat.log_eq_of_pow_le_of_lt_pow (by norm_num) (by norm_num)
  have hm : (9007199254740993 : Int).natAbs = 9007199254740993 := rfl
  simp only [roundDouble, hm, hl]
  decide

/-- C21 as stated fails.  On a product whose inStockValue and soldStockValue are both 2^53 the
call `sellProduct(1)` does not throw and lowers inStockValue by 1, but soldStockValue is not
raised by 1: the sum 2^53 + 1 is not a double and `+=` rounds it back to 2^53. -/
theorem sellProduct_sold_not_raised :
    (0 : Int) ≤ 1 ∧ (1 : Int) ≤ sampleBulk.inStockValue ∧
      (Product.sellProduct [sampleBulk] sampleBulk 1).thrown = none ∧
      (Product.sellProduct [sampleBulk] sampleBulk 1).document.inStockValue =
        sampleBulk.inStockValue - 1 ∧
      (Product.sellProduct [sampleBulk] sampleBulk 1).document.soldStockValue =
        sampleBulk.soldStockValue ∧
      (Product.sellProduct [sampleBulk] sampleBulk 1).document.soldStockValue ≠
        sampleBulk.soldStockValue + 1 := by
  have hnot : ¬ sampleBulk.inStockValue < 1 := by decide
  have hin : roundDouble (sampleBulk.inStockValue - 1) = sampleBulk.inStockValue - 1 :=
    roundDouble_exact _ (by decide) (by decide)
  have hsold : roundDouble (sampleBulk.soldStockValue + 1) = sampleBulk.soldStockValue :=
    roundDouble_above
  have hres : Product.sellProduct [sampleBulk] sampleBulk 1 =
      { document :=
          { sampleBulk with inStockValue := sampleBulk.inStockValue - 1,
                            soldStockValue := sampleBulk.soldStockValue },
        thrown := none,
        saved := Product.saveExisting [sampleBulk]
          { sampleBulk with inStockValue := sampleBulk.inStockValue - 1,
                            soldStockValue := sampleBulk.soldStockValue } } := by
    simp only [Product.sellProduct, hnot, if_false, hin, hsold]
  rw [hres]
  refine ⟨by decide, by decide, rfl, rfl, rfl, ?_⟩
  show sampleBulk.soldStockValue ≠ sampleBulk.soldStockValue + 1
  decide

/-- C21, amended.  `Product.sellProduct(q)` for an integer q ≥ 0.  If inStockValue < q it throws
'Insufficient stock' and leaves the document, so inStockValue and soldStockValue, unchanged and
does not save.  Otherwise, when the counters stay among the integers that a double holds exactly
(inStockValue ≤ 2^53, soldStockValue ≥ −2^53 and soldStockValue + q ≤ 2^53), it does not throw,
lowers inStockValue by q and raises soldStockValue by q and touches no other path, so
inStockValue does not grow, soldStockValue does not shrink, totalStockValue is the same before
and after and inStockValue stays ≥ 0; the changed document is what `save()` writes over the
stored one when it satisfies the schema. -/
theorem sellProduct_spec (products : List Product) (p : Product) (q : Int) (hq : 0 ≤ q) :
    (p.inStockValue < q →
        Product.sellProduct products p q =
          { document := p, thrown := some "Insufficient stock", saved := none }) ∧
      (q ≤ p.inStockValue → p.inStockValue ≤ 2 ^ 53 → -(2 ^ 53) ≤ p.soldStockValue →
        p.soldStockValue + q ≤ 2 ^ 53 →
        (Product.sellProduct products p q).thrown = none ∧
        (Product.sellProduct products p q).document =
          { p with inStockValue := p.inStockValue - q, soldStockValue := p.soldStockValue + q } ∧
        (Product.sellProduct products p q).document.inStockValue = p.inStockValue - q ∧
        (Product.sellProduct products p q).document.soldStockValue = p.soldStockValue + q ∧
        (Product.sellProduct products p q).document.inStockValue ≤ p.inStockValue ∧
        p.soldStockValue ≤ (Product.sellProduct products p q).document.soldStockValue ∧
        (Product.sellProduct products p q).document.totalStockValue = p.totalStockValue ∧
        0 ≤ (Product.sellProduct products p q).document.inStockValue ∧
        (p.validate = true →
          (Product.sellProduct products p q).saved =
            some (replaceFirst (fun x => x.productId == p.productId)
              { p with inStockValue := p.inStockValue - q,
                       soldStockValue := p.soldStockValue + q } products))) := by
  constructor
  · intro hlt
    simp [Product.sellProduct, hlt]
  · intro hle hin hlo hhi
    have hnot : ¬ p.inStockValue < q := not_lt.mpr hle
    have h1 : roundDouble (p.inStockValue - q) = p.inStockValue - q :=
      roundDouble_exact _ (by omega) (by omega)
    have h2 : roundDouble (p.soldStockValue + q) = p.soldStockValue + q :=
      roundDouble_exact _ (by omega) (by omega)
    have hres : Product.sellProduct products p q =
        { document :=
            { p with inStockValue := p.inStockValue - q, soldStockValue := p.soldStockValue + q },
          thrown := none,
          saved := Product.saveExisting products
            { p with inStockValue := p.inStockValue - q,
                     soldStockValue := p.soldStockValue + q } } := by
      simp only [Product.sellProduct, hnot, if_false, h1, h2]
    rw [hres]
    refine ⟨rfl, rfl, rfl, rfl, ?_, ?_, ?_, ?_, ?_⟩
    · show p.inStockValue - q ≤ p.inStockValue
      omega
    · show p.soldStockValue ≤ p.soldStockValue + q
      omega
    · show roundDouble ((p.inStockValue - q) + (p.soldStockValue + q)) =
        roundDouble (p.inStockValue + p.soldStockValue)
      congr 1
      omega
    · show 0 ≤ p.inStockValue - q
      omega
    · intro hv
      have hv' : Product.validate
          { p with inStockValue := p.inStockValue - q,
                   soldStockValue := p.soldStockValue + q } = true := hv
      show Product.saveExisting products _ = _
      simp only [Product.saveExisting, hv', if_true]

theorem sellProduct_spec_witness :
    Product.sellProduct [samplePen] samplePen 11 =
        { document := samplePen, thrown := some "Insufficient stock", saved := none } ∧
      (Product.sellProduct [samplePen] samplePen 4).document =
        { samplePen with inStockValue := 6, soldStockValue := 4 } ∧
      (Product.sellProduct [samplePen] samplePen 4).document.totalStockValue =
        samplePen.totalStockValue ∧
      (Product.sellProduct [samplePen] samplePen 4).saved =
        some [{ samplePen with inStockValue := 6, soldStockValue := 4 }] :=
  ⟨(sellProduct_spec [samplePen] samplePen 11 (by decide)).1 (by decide),
    ((sellProduct_spec [samplePen] samplePen 4 (by decide)).2 (by decide) (by decide)
      (by decide) (by decide)).2.1,
    ((sellProduct_spec [samplePen] samplePen 4 (by decide)).2 (by decide) (by decide)
      (by decide) (by decide)).2.2.2.2.2.2.1,
    ((sellProduct_spec [samplePen] samplePen 4 (by decide)).2 (by decide) (by decide)
      (by decide) (by decide)).2.2.2.2.2.2.2.2 (by decide)⟩

end Ecommerce
